import Mathlib

/-!
# AS5050 magnetic rotary encoder driver

A shallow embedding of the driver sources

* `src/src/AS5050.cpp` (mbed port, 32-bit `unsigned int`): namespace `AS5050.Mbed`;
* `src/AS5050.cpp` (Arduino library, 16-bit `unsigned int`): namespace `AS5050.Arduino`;
* `src/as5050.cpp` (earlier Arduino library): namespace `AS5050.Legacy`;

and theorems about the frame codec, the transaction engine, the angle tracker
and the fault manager.

Conventions of the embedding.

* `unsigned int` values are natural numbers; a left shift is reduced modulo
  `2 ^ UINT_BITS`, the only operation of the sources that can leave the range.
* `int` values (`_last_angle`, `rotations`, `_init_angle`, `gain`) are integers.
  Signed overflow is undefined behaviour in C++ and is not modelled.
* The SPI transport is a pair of word lists: the words the sensor is going to
  answer, and the words the driver has sent so far.
* The header `AS5050.h` is not part of the sources.  Its constants and
  compile-time switches are the fields of `Header`; a theorem that needs the
  value of one of them says so in a hypothesis.
* `printf` calls write to the console only and are left out.
-/

namespace AS5050

/-! ## Machine-level helpers -/

/-- Number of one-bits among the low `n` bits of `x`. -/
def bitCount : Nat → Nat → Nat
  | 0, _ => 0
  | n + 1, x => x % 2 + bitCount n (x / 2)

/-- GCC builtin `__builtin_parity(unsigned int)`: the number of one-bits of the
argument modulo 2.  All arguments of the driver fit in 32 bits. -/
def builtin_parity (x : Nat) : Nat := bitCount 32 x % 2

/-- Value of a C condition `a != b` as an integer: 1 when it holds, else 0. -/
def neFlag (a b : Nat) : Nat := if a ≠ b then 1 else 0

/-! ## The header -/

/-- Constants and compile-time switches declared in `AS5050.h`. -/
structure Header where
  AS_READ : Nat
  AS_WRITE : Nat
  REG_NOP : Nat
  REG_ANGLE : Nat
  REG_GAIN_CONTROL : Nat
  REG_ERROR_STATUS : Nat
  REG_CLEAR_ERROR : Nat
  REG_SOFTWARE_RESET : Nat
  REG_MASTER_RESET : Nat
  REG_CHIP_STATUS : Nat
  DATA_SWRESET_SPI : Nat
  RES_PARITY : Nat
  RES_ERROR_FLAG : Nat
  RES_ALARM_HIGH : Nat
  RES_ALARM_LOW : Nat
  ERR_PARITY : Nat
  ERR_CLKMON : Nat
  ERR_ADDMON : Nat
  ERR_WOW : Nat
  ERR_MODE : Nat
  ERR_DACOV : Nat
  ERR_DSPOV : Nat
  ERR_RANERR : Nat
  ERR_DSPALO : Nat
  ERR_DSPAHI : Nat
  AS5050_ANGULAR_RESOLUTION : Nat
  /-- The switch `AS5050_AUTO_ERROR_HANDLING==1`. -/
  AS5050_AUTO_ERROR_HANDLING : Bool
  /-- The switch `AS5050_RESET_ON_ERRORS==1`. -/
  AS5050_RESET_ON_ERRORS : Bool
  NUM_ANGLE_SAMPLES : Nat
deriving DecidableEq, Repr

/-- Modelled from the spec: the constants of the absent header `AS5050.h`, used
where a concrete header is needed.  The read/write bit is the top bit of a
frame, the parity bit is bit 0, the error flag is bit 1, the two alarm bits are
the top bits of the angle response, every register is a 14-bit address, the
error-status masks are distinct single bits, the resolution is 1024.  Both
switches are enabled. -/
def AS5050_h : Header where
  AS_READ := 0x8000
  AS_WRITE := 0x0000
  REG_NOP := 0x0000
  REG_ANGLE := 0x3FFF
  REG_GAIN_CONTROL := 0x3FF8
  REG_ERROR_STATUS := 0x335A
  REG_CLEAR_ERROR := 0x3380
  REG_SOFTWARE_RESET := 0x3C00
  REG_MASTER_RESET := 0x33A5
  REG_CHIP_STATUS := 0x3F20
  DATA_SWRESET_SPI := 0x1
  RES_PARITY := 0x1
  RES_ERROR_FLAG := 0x2
  RES_ALARM_HIGH := 0x8000
  RES_ALARM_LOW := 0x4000
  ERR_PARITY := 0x1
  ERR_CLKMON := 0x2
  ERR_ADDMON := 0x4
  ERR_WOW := 0x10
  ERR_MODE := 0x20
  ERR_DACOV := 0x100
  ERR_DSPOV := 0x200
  ERR_RANERR := 0x400
  ERR_DSPALO := 0x800
  ERR_DSPAHI := 0x1000
  AS5050_ANGULAR_RESOLUTION := 1024
  AS5050_AUTO_ERROR_HANDLING := true
  AS5050_RESET_ON_ERRORS := true
  NUM_ANGLE_SAMPLES := 1

/-! ## Transport -/

/-- The SPI transport seen from the driver: `rx` holds the words the sensor
answers on the coming exchanges (an exhausted list answers 0), `tx` the words
sent so far, oldest first. -/
structure Bus where
  rx : List Nat
  tx : List Nat
deriving DecidableEq, Repr

/-- One full-duplex exchange of a 16-bit word (the two byte transfers of
`AS5050::send`, most significant byte first). -/
def Bus.transferWord (b : Bus) (w : Nat) : Nat × Bus :=
  (b.rx.headD 0 % 65536, { rx := b.rx.tail, tx := b.tx ++ [w % 65536] })

/-- The word the sensor answers on the `i`-th coming exchange, counted from 0. -/
def Bus.reply (b : Bus) (i : Nat) : Nat := (b.rx.drop i).headD 0 % 65536

/-- The record `error` of the driver. -/
structure ErrorRec where
  parity : Nat
  transaction : Nat
  status : Nat
deriving DecidableEq, Repr

/-! ## `src/src/AS5050.cpp` -/

namespace Mbed

/-- Width of `unsigned int` on the mbed targets. -/
def UINT_BITS : Nat := 32

/-- Reduction to the range of `unsigned int`. -/
def toUInt (x : Nat) : Nat := x % 2 ^ UINT_BITS

/-- Conversion of an `int` to `unsigned int`. -/
def intToUInt (x : Int) : Nat := (x % 2 ^ UINT_BITS).toNat

/-- Bitwise complement of a constant, as in `~RES_PARITY`. -/
def bitNot (x : Nat) : Nat := 2 ^ UINT_BITS - 1 - x

/-- Fields of the driver object. -/
structure Driver where
  _last_angle : Int
  rotations : Int
  _init_angle : Int
  mirrored : Bool
  data : Nat
  error : ErrorRec
  bus : Bus
deriving DecidableEq, Repr

/-- `AS5050::send`. -/
def send (reg_a : Nat) (s : Driver) : Nat × Driver :=
  let r := s.bus.transferWord reg_a
  (r.1, { s with bus := r.2 })

/-- The command frame built at the head of `AS5050::read`. -/
def readFrame (H : Header) (reg : Nat) : Nat :=
  let reg := toUInt (reg <<< 1) ||| H.AS_READ
  reg ||| builtin_parity reg

/-- The address frame built at the head of `AS5050::write`. -/
def writeAddressFrame (H : Header) (reg : Nat) : Nat :=
  let reg := toUInt (reg <<< 1) ||| H.AS_WRITE
  reg ||| builtin_parity reg

/-- The data frame built by `AS5050::write`. -/
def writeDataFrame (data : Nat) : Nat :=
  let data := toUInt (data <<< 2)
  data ||| builtin_parity data

/-- The check `__builtin_parity(w&(~RES_PARITY)) != (w&RES_PARITY)`. -/
def parityMismatch (H : Header) (w : Nat) : Nat :=
  neFlag (builtin_parity (w &&& bitNot H.RES_PARITY)) (w &&& H.RES_PARITY)

/-- `AS5050::read`. -/
def read (H : Header) (reg : Nat) (s : Driver) : Nat × Driver :=
  let reg := readFrame H reg
  let s := (send reg s).2
  let r := send H.REG_NOP s
  let reg := r.1
  let s := r.2
  let parity := parityMismatch H reg
  let transaction := s.error.transaction ||| parity
  let transaction := transaction ||| (reg &&& H.RES_ERROR_FLAG)
  (reg, { s with error := { s.error with parity := parity, transaction := transaction } })

/-- `AS5050::write`. -/
def write (H : Header) (reg data : Nat) (s : Driver) : Nat × Driver :=
  let reg := writeAddressFrame H reg
  let data := writeDataFrame data
  let s := (send reg s).2
  let s := (send data s).2
  let r := send H.REG_NOP s
  let data := r.1
  let s := r.2
  let parity := s.error.parity ||| parityMismatch H data
  let transaction := parity
  let transaction := transaction ||| (reg &&& H.RES_ERROR_FLAG)
  (data, { s with error := { s.error with parity := parity, transaction := transaction } })

/-- `AS5050::status`. -/
def status (H : Header) (s : Driver) : Nat × Driver :=
  read H H.REG_CHIP_STATUS s

/-- The rollover tracking of `AS5050::angle()`: the new value of `rotations`
for the previous sample `last` and the new sample `angle`.  The bounds are
`double`s in the source; they hold small integers, so the comparisons are
exact. -/
def trackRollover (H : Header) (last rotations : Int) (angle : Nat) : Int :=
  let boundForWrap : Int := (H.AS5050_ANGULAR_RESOLUTION / 4 : Nat)
  let maxForWrap : Int := (H.AS5050_ANGULAR_RESOLUTION : Int) - boundForWrap
  if last > maxForWrap ∧ (angle : Int) ≤ boundForWrap then rotations + 1
  else if last < boundForWrap ∧ (angle : Int) ≥ maxForWrap then rotations - 1
  else rotations

/-- The tail of `AS5050::angle()` once the response `data` is accepted. -/
def acceptSample (H : Header) (s : Driver) : Int × Driver :=
  let angle := s.data &&& 0x3FF
  let rotations := trackRollover H s._last_angle s.rotations angle
  ((angle : Int), { s with rotations := rotations, _last_angle := (angle : Int) })

/-- `AS5050::angle()`. -/
def angle (H : Header) (s : Driver) : Int × Driver :=
  let r := read H H.REG_ANGLE s
  let s := { r.2 with data := r.1 }
  let parity := parityMismatch H s.data
  let s := { s with error := { s.error with parity := parity,
                                            transaction := s.error.transaction ||| parity } }
  let s := { s with error := { s.error with
                transaction := s.data ||| H.RES_ALARM_HIGH ||| H.RES_ALARM_LOW } }
  if H.AS5050_AUTO_ERROR_HANDLING = true ∧ s.error.transaction ≠ 0 then
    let r := read H H.REG_ERROR_STATUS s
    let s := { r.2 with error := { r.2.error with status := r.1 } }
    if s.error.transaction &&& H.RES_PARITY ≠ 0 then (s._last_angle, s)
    else acceptSample H s
  else acceptSample H s

/-- The loop of `AS5050::angle(byte nsamples)`: the values returned by `n`
successive calls of `angle()`, and the final state. -/
def angleSamples (H : Header) : Nat → Driver → List Int × Driver
  | 0, s => ([], s)
  | n + 1, s =>
    let r := angle H s
    let rest := angleSamples H n r.2
    (r.1 :: rest.1, rest.2)

/-- `AS5050::angle(byte nsamples)`; `/` on `int` truncates. -/
def angleN (H : Header) (nsamples : Nat) (s : Driver) : Int × Driver :=
  let r := angleSamples H nsamples s
  let sum : Int := r.1.sum
  (Int.tdiv (sum + ((nsamples / 2 : Nat) : Int)) (nsamples : Int), r.2)

/-- `AS5050::totalAngle`; the call of `angle()` is evaluated before `rotations`
is read. -/
def totalAngle (H : Header) (s : Driver) : Int × Driver :=
  let r := angle H s
  (r.1 + r.2.rotations * (H.AS5050_ANGULAR_RESOLUTION : Int), r.2)

/-- `AS5050::deltaAngle`; the call of `angle()` is evaluated before the fields
are read. -/
def deltaAngle (H : Header) (s : Driver) : Int × Driver :=
  let r := angle H s
  ((r.1 - r.2._init_angle) + r.2.rotations * 1024, r.2)

/-- `AS5050::setHome`. -/
def setHome (s : Driver) : Driver :=
  { s with rotations := 0, _init_angle := 0 }

/-- The gain adjustment of `AS5050::handleErrors`:
`int gain=read(REG_GAIN_CONTROL); write(REG_GAIN_CONTROL,gain+step);`
with `step = -1` for `--gain` and `step = 1` for `++gain`. -/
def adjustGain (H : Header) (step : Int) (s : Driver) : Driver :=
  let r := read H H.REG_GAIN_CONTROL s
  let gain : Int := (r.1 : Int)
  let gain := gain + step
  (write H H.REG_GAIN_CONTROL (intToUInt gain) r.2).2

/-- The corrective part of `AS5050::handleErrors`, from the gain checks down to
the last advisory check; the advisory checks only print. -/
def correctFaults (H : Header) (s : Driver) : Driver :=
  let s :=
    if s.error.status &&& H.ERR_DSPAHI ≠ 0 then adjustGain H (-1) s
    else if s.error.status &&& H.ERR_DSPALO ≠ 0 then adjustGain H 1 s
    else s
  let s :=
    if s.error.status &&& H.ERR_WOW ≠ 0 then
      (write H H.REG_SOFTWARE_RESET H.DATA_SWRESET_SPI s).2
    else s
  let s :=
    if s.error.status &&& H.ERR_DSPOV ≠ 0 then
      (write H H.REG_SOFTWARE_RESET H.DATA_SWRESET_SPI s).2
    else s
  s

/-- `AS5050::handleErrors`. -/
def handleErrors (H : Header) (s : Driver) : Nat × Driver :=
  if s.error.status ≠ 0 then
    if s.error.status &&& H.ERR_PARITY ≠ 0 then (s.error.status, s)
    else
      let s := correctFaults H s
      let r := read H H.REG_CLEAR_ERROR s
      let s : Driver := { r.2 with error := { r.2.error with status := r.1 } }
      let s : Driver :=
        if H.AS5050_RESET_ON_ERRORS = true ∧ s.error.status ≠ 0 then
          (write H H.REG_MASTER_RESET 0x0 s).2
        else s
      (s.error.status, s)
  else (s.error.status, s)

/-! ### Accepted samples and the unwrapped position -/

/-- Feeds accepted raw samples to the tail of `angle()`, one call per sample:
the response of each call carries the sample in its low ten bits. -/
def feedAccepted (H : Header) (s : Driver) : List Nat → Driver
  | [] => s
  | a :: rest => feedAccepted H (acceptSample H { s with data := a }).2 rest

/-- Distance of two samples on the circle of 1024 counts. -/
def circDist (a b : Nat) : Int :=
  min (((b : Int) - (a : Int)) % 1024) (((a : Int) - (b : Int)) % 1024)

/-- Signed shortest step on the circle of 1024 counts from `a` to `b`. -/
def shortestStep (a b : Nat) : Int :=
  let d := ((b : Int) - (a : Int)) % 1024
  if d ≤ 512 then d else d - 1024

/-- Unwrapped position after the samples: starts at `p` on sample `a` and adds
the shortest step of every transition. -/
def unwrapped : Int → Nat → List Nat → Int
  | p, _, [] => p
  | p, a, b :: rest => unwrapped (p + shortestStep a b) b rest

/-- A driver at rest on raw sample `last`, with no revolution counted. -/
def trackerAt (last : Int) (rx : List Nat) : Driver where
  _last_angle := last
  rotations := 0
  _init_angle := 0
  mirrored := false
  data := 0
  error := ⟨0, 0, 0⟩
  bus := ⟨rx, []⟩

end Mbed

/-! ## `src/AS5050.cpp` -/

namespace Arduino

/-- Width of `unsigned int` and `int` on the AVR targets of the Arduino
library. -/
def UINT_BITS : Nat := 16

/-- Reduction to the range of `unsigned int`. -/
def toUInt (x : Nat) : Nat := x % 2 ^ UINT_BITS

/-- Conversion of an `int` to `unsigned int`. -/
def intToUInt (x : Int) : Nat := (x % 2 ^ UINT_BITS).toNat

/-- Conversion of an `unsigned int` to `int` (two's complement). -/
def uintToInt (x : Nat) : Int :=
  if x < 2 ^ (UINT_BITS - 1) then (x : Int) else (x : Int) - 2 ^ UINT_BITS

/-- Bitwise complement of a constant, as in `~RES_PARITY`. -/
def bitNot (x : Nat) : Nat := 2 ^ UINT_BITS - 1 - x

/-- Fields of the driver object. -/
structure Driver where
  _pin : Nat
  _last_angle : Int
  rotations : Int
  _init_angle : Int
  mirror : Bool
  gain : Int
  error : ErrorRec
  bus : Bus
deriving DecidableEq, Repr

/-- `AS5050::send`. -/
def send (reg_a : Nat) (s : Driver) : Nat × Driver :=
  let r := s.bus.transferWord reg_a
  (r.1, { s with bus := r.2 })

/-- The command frame built at the head of `AS5050::read`. -/
def readFrame (H : Header) (reg : Nat) : Nat :=
  let reg := toUInt (reg <<< 1) ||| H.AS_READ
  reg ||| builtin_parity reg

/-- The address frame built at the head of `AS5050::write`. -/
def writeAddressFrame (H : Header) (reg : Nat) : Nat :=
  let reg := toUInt (reg <<< 1) ||| H.AS_WRITE
  reg ||| builtin_parity reg

/-- The data frame built by `AS5050::write`. -/
def writeDataFrame (data : Nat) : Nat :=
  let data := toUInt (data <<< 2)
  data ||| builtin_parity data

/-- The check `__builtin_parity(w&(~RES_PARITY)) != (w&RES_PARITY)`. -/
def parityMismatch (H : Header) (w : Nat) : Nat :=
  neFlag (builtin_parity (w &&& bitNot H.RES_PARITY)) (w &&& H.RES_PARITY)

/-- `AS5050::read`. -/
def read (H : Header) (reg : Nat) (s : Driver) : Nat × Driver :=
  let reg := readFrame H reg
  let s := (send reg s).2
  let r := send H.REG_NOP s
  let reg := r.1
  let s := r.2
  let parity := parityMismatch H reg
  let transaction := s.error.transaction ||| parity
  let transaction := transaction ||| (reg &&& H.RES_ERROR_FLAG)
  (reg, { s with error := { s.error with parity := parity, transaction := transaction } })

/-- `AS5050::write`. -/
def write (H : Header) (reg data : Nat) (s : Driver) : Nat × Driver :=
  let reg := writeAddressFrame H reg
  let data := writeDataFrame data
  let s := (send reg s).2
  let s := (send data s).2
  let r := send H.REG_NOP s
  let data := r.1
  let s := r.2
  let transaction := data &&& H.RES_ERROR_FLAG
  let parity := parityMismatch H data
  let transaction := transaction ||| parity
  let transaction := transaction ||| (data &&& H.RES_ERROR_FLAG)
  (data, { s with error := { s.error with parity := parity, transaction := transaction } })

/-- The payload extraction `(data&0x3FFE)>>2` of `AS5050::raw_angle`. -/
def anglePayload (data : Nat) : Nat := (data &&& 0x3FFE) >>> 2

/-- The local gain adjustment of `AS5050::handleErrors`:
`int gain=read(REG_GAIN_CONTROL); write(REG_GAIN_CONTROL,gain+step);`
with `step = -1` for `--gain` and `step = 1` for `++gain`. -/
def adjustGain (H : Header) (step : Int) (s : Driver) : Driver :=
  let r := read H H.REG_GAIN_CONTROL s
  let gain : Int := uintToInt r.1
  let gain := gain + step
  (write H H.REG_GAIN_CONTROL (intToUInt gain) r.2).2

/-- `AS5050::handleErrors`.  The branch conditions test the register address
`REG_ERROR_STATUS`, as the source does; the advisory branches are empty. -/
def handleErrors (H : Header) (s : Driver) : Nat × Driver :=
  let r := read H H.REG_ERROR_STATUS s
  let s : Driver := { r.2 with error := { r.2.error with status := r.1 } }
  if s.error.status ≠ 0 then
    if H.REG_ERROR_STATUS &&& H.ERR_PARITY ≠ 0 then (s.error.status, s)
    else
      let s : Driver :=
        if H.REG_ERROR_STATUS &&& H.ERR_DSPAHI ≠ 0 then adjustGain H (-1) s
        else if H.REG_ERROR_STATUS &&& H.ERR_DSPALO ≠ 0 then adjustGain H 1 s
        else s
      let s : Driver :=
        if H.REG_ERROR_STATUS &&& H.ERR_WOW ≠ 0 then
          (write H H.REG_SOFTWARE_RESET H.DATA_SWRESET_SPI s).2
        else s
      let s : Driver :=
        if H.REG_ERROR_STATUS &&& H.ERR_DSPOV ≠ 0 then
          (write H H.REG_SOFTWARE_RESET H.DATA_SWRESET_SPI s).2
        else s
      let r := read H H.REG_CLEAR_ERROR s
      let s : Driver := { r.2 with error := { r.2.error with status := r.1 } }
      let s : Driver :=
        if H.AS5050_RESET_ON_ERRORS = true ∧ s.error.status ≠ 0 then
          (write H H.REG_MASTER_RESET 0x0 s).2
        else s
      (s.error.status, s)
  else (s.error.status, s)

/-- The gain adjustment of `AS5050::raw_angle`, on the member `gain`:
`gain=read(REG_GAIN_CONTROL); write(REG_GAIN_CONTROL,gain+step);`. -/
def adjustGainMember (H : Header) (step : Int) (s : Driver) : Driver :=
  let r := read H H.REG_GAIN_CONTROL s
  let s : Driver := { r.2 with gain := uintToInt r.1 }
  let s : Driver := { s with gain := s.gain + step }
  (write H H.REG_GAIN_CONTROL (intToUInt s.gain) s).2

/-- `AS5050::raw_angle`. -/
def raw_angle (H : Header) (s : Driver) : Int × Driver :=
  let r := read H H.REG_ANGLE s
  let data := r.1
  let s := r.2
  let angle : Int := (anglePayload data : Nat)
  let angle : Int := if s.mirror then (H.AS5050_ANGULAR_RESOLUTION : Int) - angle else angle
  if H.AS5050_AUTO_ERROR_HANDLING = true then
    let sel := data &&& (H.RES_ALARM_HIGH ||| H.RES_ALARM_LOW)
    if sel = H.RES_ALARM_HIGH then (angle, adjustGainMember H (-1) s)
    else if sel = H.RES_ALARM_LOW then (angle, adjustGainMember H 1 s)
    else (angle, (handleErrors H s).2)
  else (angle, s)

/-- Local variables of the sampling loop of `AS5050::angle`. -/
structure Loop where
  anglesum : Nat
  last_sample : Int
  _rotations : Int
deriving DecidableEq, Repr

/-- One iteration of the sampling loop of `AS5050::angle`. -/
def angleIter (H : Header) (l : Loop) (s : Driver) : Loop × Driver :=
  let r := raw_angle H s
  let s := r.2
  let angle : Int := if s.error.parity ≠ 0 then l.last_sample else r.1
  let anglesum := intToUInt ((l.anglesum : Int) + angle)
  let _rotations :=
    if l.last_sample > 768 ∧ angle ≤ 256 then l._rotations + 1
    else if l.last_sample < 256 ∧ angle ≥ 768 then l._rotations - 1
    else l._rotations
  let s := if s.error.transaction ≠ 0 then (handleErrors H s).2 else s
  ({ anglesum := anglesum, last_sample := angle, _rotations := _rotations }, s)

/-- The sampling loop of `AS5050::angle`, `n` iterations. -/
def angleLoop (H : Header) : Nat → Loop → Driver → Loop × Driver
  | 0, l, s => (l, s)
  | n + 1, l, s =>
    let r := angleIter H l s
    angleLoop H n r.1 r.2

/-- `AS5050::angle`; the loop counter is a `byte`, so `NUM_ANGLE_SAMPLES` is at
most 255. -/
def angle (H : Header) (s : Driver) : Int × Driver :=
  let l : Loop := { anglesum := 0, last_sample := s._last_angle, _rotations := s.rotations }
  let r := angleLoop H H.NUM_ANGLE_SAMPLES l s
  let l := r.1
  let s := r.2
  let angle : Int :=
    uintToInt (toUInt (l.anglesum + H.NUM_ANGLE_SAMPLES / 2) / H.NUM_ANGLE_SAMPLES)
  (angle, { s with rotations := l._rotations, _last_angle := angle })

/-- `AS5050::totalAngle`; the call of `angle()` is evaluated before `rotations`
is read. -/
def totalAngle (H : Header) (s : Driver) : Int × Driver :=
  let r := angle H s
  (r.1 + r.2.rotations * 1024, r.2)

/-- `AS5050::deltaAngle`; the call of `angle()` is evaluated before the fields
are read. -/
def deltaAngle (H : Header) (s : Driver) : Int × Driver :=
  let r := angle H s
  ((r.1 - r.2._init_angle) + r.2.rotations * 1024, r.2)

/-- `AS5050::setHome`. -/
def setHome (s : Driver) : Driver :=
  { s with rotations := 0, _init_angle := 0 }

end Arduino

/-! ## Traces and sample states -/

namespace Mbed

/-- Three calls of `angle()` followed by one call of `totalAngle()`: the four
values returned, and `rotations` after each call. -/
def fourCalls (H : Header) (s : Driver) : List Int × List Int :=
  let a := angle H s
  let b := angle H a.2
  let c := angle H b.2
  let d := totalAngle H c.2
  ([a.1, b.1, c.1, d.1], [a.2.rotations, b.2.rotations, c.2.rotations, d.2.rotations])

/-- Successive calls of `angle()`, as many as `n`; the state after the last. -/
def angleCalls (H : Header) : Nat → Driver → Driver
  | 0, s => s
  | n + 1, s => angleCalls H n (angle H s).2

/-- The words sent by one `read(reg)`: the read frame, then the NOP frame. -/
def readExchanges (H : Header) (reg : Nat) : List Nat :=
  [readFrame H reg % 65536, H.REG_NOP % 65536]

/-- The words sent by one `write(reg, data)`: the address frame, the data
frame, then the NOP frame. -/
def writeExchanges (H : Header) (reg data : Nat) : List Nat :=
  [writeAddressFrame H reg % 65536, writeDataFrame data % 65536, H.REG_NOP % 65536]

/-- A driver whose `error.status` reports gain too high, in front of a sensor
that answers gain 37 and then a clean clear-error read. -/
def gainHighState : Driver where
  _last_angle := 0
  rotations := 0
  _init_angle := 0
  mirrored := false
  data := 0
  error := ⟨0, 0, 0x1000⟩
  bus := ⟨[0, 37, 0, 0, 0, 0, 0], []⟩

/-- A driver three revolutions away from its home 816, at rest on raw sample
816, in front of a sensor that answers the well-formed word 0x0330. -/
def awayFromHome : Driver where
  _last_angle := 816
  rotations := 3
  _init_angle := 816
  mirrored := false
  data := 0x0330
  error := ⟨0, 0, 0⟩
  bus := ⟨[0, 0x0330, 0, 0], []⟩

end Mbed

namespace Arduino

/-- The words sent by one `read(reg)`: the read frame, then the NOP frame. -/
def readExchanges (H : Header) (reg : Nat) : List Nat :=
  [readFrame H reg % 65536, H.REG_NOP % 65536]

/-- The words sent by one `write(reg, data)`: the address frame, the data
frame, then the NOP frame. -/
def writeExchanges (H : Header) (reg data : Nat) : List Nat :=
  [writeAddressFrame H reg % 65536, writeDataFrame data % 65536, H.REG_NOP % 65536]

/-- A driver three revolutions away from its home 204, at rest on raw sample
204, in front of a sensor that answers the well-formed word 0x0330 (payload
204) and reports no error. -/
def awayFromHome : Driver where
  _pin := 10
  _last_angle := 204
  rotations := 3
  _init_angle := 204
  mirror := false
  gain := 0
  error := ⟨0, 0, 0⟩
  bus := ⟨[0, 0x0330, 0, 0], []⟩

end Arduino

/-! ## Derived outputs, in exact arithmetic

The `float` results are modelled as rationals: every operation is exact, and
the macro `AS5050_TAU` of the header is the parameter `tau`. -/

namespace Mbed

/-- `AS5050::angleDegrees`. -/
def angleDegrees (H : Header) (s : Driver) : ℚ × Driver :=
  let r := angle H s
  (((r.1 * 360 : Int) : ℚ) / (H.AS5050_ANGULAR_RESOLUTION : ℚ), r.2)

/-- `AS5050::angleRad`. -/
def angleRad (H : Header) (tau : ℚ) (s : Driver) : ℚ × Driver :=
  let r := angle H s
  ((r.1 : ℚ) * tau / (H.AS5050_ANGULAR_RESOLUTION : ℚ), r.2)

/-- `AS5050::totalAngleDegrees`; the call is evaluated before `rotations` is
read. -/
def totalAngleDegrees (H : Header) (s : Driver) : ℚ × Driver :=
  let r := angleDegrees H s
  (r.1 + ((360 * r.2.rotations : Int) : ℚ), r.2)

/-- `AS5050::totalAngleRad`; the call is evaluated before `rotations` is
read. -/
def totalAngleRad (H : Header) (tau : ℚ) (s : Driver) : ℚ × Driver :=
  let r := angleDegrees H s
  (r.1 + tau * (r.2.rotations : ℚ), r.2)

/-- A driver one revolution up, at rest on raw sample 256, in front of a sensor
that answers the well-formed word 0x0500, which this variant reads as 256. -/
def quarterTurnUp : Driver where
  _last_angle := 256
  rotations := 1
  _init_angle := 0
  mirrored := false
  data := 0x0500
  error := ⟨0, 0, 0⟩
  bus := ⟨[0, 0x0500, 0, 0], []⟩

end Mbed

namespace Arduino

/-- `AS5050::angleDegrees`. -/
def angleDegrees (H : Header) (s : Driver) : ℚ × Driver :=
  let r := angle H s
  (((r.1 * 360 : Int) : ℚ) / (H.AS5050_ANGULAR_RESOLUTION : ℚ), r.2)

/-- `AS5050::angleRad`. -/
def angleRad (H : Header) (tau : ℚ) (s : Driver) : ℚ × Driver :=
  let r := angle H s
  ((r.1 : ℚ) * tau / (H.AS5050_ANGULAR_RESOLUTION : ℚ), r.2)

/-- `AS5050::totalAngleDegrees`; the call is evaluated before `rotations` is
read. -/
def totalAngleDegrees (H : Header) (s : Driver) : ℚ × Driver :=
  let r := angleDegrees H s
  (r.1 + ((360 * r.2.rotations : Int) : ℚ), r.2)

/-- `AS5050::totalAngleRad`; the call is evaluated before `rotations` is
read. -/
def totalAngleRad (H : Header) (tau : ℚ) (s : Driver) : ℚ × Driver :=
  let r := angleDegrees H s
  (r.1 + tau * (r.2.rotations : ℚ), r.2)

/-- A driver one revolution up, at rest on raw sample 256, in front of a sensor
that answers the well-formed word 0x0401 (payload 256 in bits 11..2, parity
bit set) and reports no error. -/
def quarterTurnUp : Driver where
  _pin := 10
  _last_angle := 256
  rotations := 1
  _init_angle := 0
  mirror := false
  gain := 0
  error := ⟨0, 0, 0⟩
  bus := ⟨[0, 0x0401, 0, 0], []⟩

/-- A driver with mirroring on, at rest on raw sample `last`. -/
def mirroredAt (last : Int) (rx : List Nat) : Driver where
  _pin := 10
  _last_angle := last
  rotations := 0
  _init_angle := 0
  mirror := true
  gain := 0
  error := ⟨0, 0, 0⟩
  bus := ⟨rx, []⟩

/-- A driver without mirroring, at rest on raw sample `last`. -/
def trackerAt (last : Int) (rx : List Nat) : Driver where
  _pin := 10
  _last_angle := last
  rotations := 0
  _init_angle := 0
  mirror := false
  gain := 0
  error := ⟨0, 0, 0⟩
  bus := ⟨rx, []⟩

end Arduino

/-! ## Fault masks and further sample states -/

namespace Mbed

/-- The union of the advisory masks of `handleErrors`: hardware saturation,
accuracy degradation, mode, clock monitor and address monitor. -/
def advisoryMask (H : Header) : Nat :=
  H.ERR_DACOV ||| H.ERR_RANERR ||| H.ERR_MODE ||| H.ERR_CLKMON ||| H.ERR_ADDMON

/-- A driver whose `error.status` holds the advisory bits `ERR_DACOV` and
`ERR_MODE`, in front of a sensor whose clear-error read answers 0. -/
def advisoryState : Driver where
  _last_angle := 0
  rotations := 0
  _init_angle := 0
  mirrored := false
  data := 0
  error := ⟨0, 0, 0x120⟩
  bus := ⟨[0, 0], []⟩

/-- A driver whose `error.parity` is still set from an earlier transaction, in
front of a sensor that confirms the next write with the clean word 0. -/
def staleParity : Driver where
  _last_angle := 0
  rotations := 0
  _init_angle := 0
  mirrored := false
  data := 0
  error := ⟨1, 0, 0⟩
  bus := ⟨[0, 0, 0], []⟩

end Mbed

/-! ## `src/as5050.cpp`

The earlier Arduino library.  Its frame construction and its parity check are
the same text as in `src/AS5050.cpp`, so `Arduino.readFrame`,
`Arduino.writeAddressFrame`, `Arduino.writeDataFrame` and
`Arduino.parityMismatch` are used for them. -/

namespace Legacy

/-- Fields of the driver object. -/
structure Driver where
  _pin : Nat
  gain : Int
  error : ErrorRec
  bus : Bus
deriving DecidableEq, Repr

/-- `AS5050::send`. -/
def send (reg_a : Nat) (s : Driver) : Nat × Driver :=
  let r := s.bus.transferWord reg_a
  (r.1, { s with bus := r.2 })

/-- `AS5050::read`. -/
def read (H : Header) (reg : Nat) (s : Driver) : Nat × Driver :=
  let reg := Arduino.readFrame H reg
  let s := (send reg s).2
  let r := send H.REG_NOP s
  let reg := r.1
  let s := r.2
  let transaction := s.error.transaction ||| Arduino.parityMismatch H reg
  (reg, { s with error := { s.error with transaction := transaction } })

/-- `AS5050::write`. -/
def write (H : Header) (reg data : Nat) (s : Driver) : Nat × Driver :=
  let reg := Arduino.writeAddressFrame H reg
  let data := Arduino.writeDataFrame data
  let s := (send reg s).2
  let s := (send data s).2
  let r := send H.REG_NOP s
  let data := r.1
  let s := r.2
  let transaction := data &&& H.RES_ERROR_FLAG
  let transaction := transaction ||| Arduino.parityMismatch H data
  (data, { s with error := { s.error with transaction := transaction } })

/-- The gain step of `AS5050::handleErrors`:
`gain=read(REG_GAIN_CONTROL); write(REG_GAIN_CONTROL,gain--);` for
`step = -1`, and the same with `gain++` for `step = 1`.  The operand is
post-decremented (post-incremented): `write` receives the value read, and the
member `gain` is changed afterwards. -/
def postAdjustGain (H : Header) (step : Int) (s : Driver) : Driver :=
  let r := read H H.REG_GAIN_CONTROL s
  let s : Driver := { r.2 with gain := Arduino.uintToInt r.1 }
  let passed := Arduino.intToUInt s.gain
  let s : Driver := { s with gain := s.gain + step }
  (write H H.REG_GAIN_CONTROL passed s).2

/-- `AS5050::handleErrors`. -/
def handleErrors (H : Header) (s : Driver) : Nat × Driver :=
  let error_t := s.error.transaction
  if s.error.transaction &&& (H.RES_ALARM_HIGH ||| H.RES_ALARM_LOW) ≠ 0 then
    let s : Driver :=
      if error_t &&& (H.RES_ALARM_HIGH ||| H.RES_ALARM_LOW) = H.RES_ALARM_HIGH then
        postAdjustGain H (-1) s
      else if error_t &&& (H.RES_ALARM_HIGH ||| H.RES_ALARM_LOW) = H.RES_ALARM_LOW then
        postAdjustGain H 1 s
      else s
    let s : Driver := { s with error := { s.error with transaction := 0 } }
    let r := read H H.REG_CLEAR_ERROR s
    let s : Driver := { r.2 with error := { r.2.error with status := r.1 } }
    let s : Driver :=
      if H.AS5050_RESET_ON_ERRORS = true ∧ s.error.status ≠ 0 then
        (write H H.REG_SOFTWARE_RESET H.DATA_SWRESET_SPI s).2
      else s
    (s.error.status, s)
  else (s.error.status, s)

/-- `AS5050::angle`. -/
def angle (H : Header) (s : Driver) : Int × Driver :=
  let r := read H H.REG_ANGLE s
  let data := r.1
  let s := r.2
  let s : Driver := { s with error := { s.error with
                        transaction := data ||| H.RES_ALARM_HIGH ||| H.RES_ALARM_LOW } }
  let s : Driver := { s with error := { s.error with
                        transaction := s.error.transaction ||| Arduino.parityMismatch H data } }
  let s : Driver :=
    if H.AS5050_AUTO_ERROR_HANDLING = true ∧ s.error.transaction ≠ 0 then (handleErrors H s).2
    else s
  (((Arduino.anglePayload data : Nat) : Int), s)

/-- A driver whose saved transaction error holds the high alarm only (`high`)
or the low alarm only, in front of a sensor that answers gain 37 and then a
clean clear-error read. -/
def alarmState (high : Bool) : Driver where
  _pin := 10
  gain := 0
  error := ⟨0, if high then AS5050_h.RES_ALARM_HIGH else AS5050_h.RES_ALARM_LOW, 0⟩
  bus := ⟨[0, 37, 0, 0, 0, 0, 0], []⟩

/-- The words sent by one `read(reg)`: the read frame, then the NOP frame. -/
def readExchanges (H : Header) (reg : Nat) : List Nat :=
  [Arduino.readFrame H reg % 65536, H.REG_NOP % 65536]

/-- The words sent by one `write(reg, data)`: the address frame, the data
frame, then the NOP frame. -/
def writeExchanges (H : Header) (reg data : Nat) : List Nat :=
  [Arduino.writeAddressFrame H reg % 65536, Arduino.writeDataFrame data % 65536,
   H.REG_NOP % 65536]

/-- The value `t` of `error.transaction` holds both alarm masks or none of
their bits. -/
def BothOrNoAlarm (H : Header) (t : Nat) : Prop :=
  t &&& (H.RES_ALARM_HIGH ||| H.RES_ALARM_LOW) = 0 ∨
  t &&& (H.RES_ALARM_HIGH ||| H.RES_ALARM_LOW) = H.RES_ALARM_HIGH ||| H.RES_ALARM_LOW

/-- A driver with a clean error record and gain 37 on record, in front of a
sensor that answers the words `rx`. -/
def idleWith (rx : List Nat) : Driver where
  _pin := 10
  gain := 37
  error := ⟨0, 0, 0⟩
  bus := ⟨rx, []⟩

end Legacy

namespace Arduino

/-- A driver whose `error.transaction` is still set from an earlier
transaction, in front of a sensor that answers the clean word 0. -/
def staleTransaction : Driver where
  _pin := 10
  _last_angle := 0
  rotations := 0
  _init_angle := 0
  mirror := false
  gain := 0
  error := ⟨0, 1, 0⟩
  bus := ⟨[0, 0], []⟩

end Arduino

namespace Mbed

/-- The continuous position `rotations * 1024 + _last_angle` held by the
tracker. -/
def position (s : Driver) : Int := s.rotations * 1024 + s._last_angle

end Mbed

namespace Mbed

/-- A driver whose `error.status` holds the advisory bit `ERR_DACOV`, in front
of a sensor whose clear-error read answers the non-zero word 4. -/
def persistentState : Driver where
  _last_angle := 0
  rotations := 0
  _init_angle := 0
  mirrored := false
  data := 0
  error := ⟨0, 0, 0x100⟩
  bus := ⟨[0, 4, 0, 0, 0], []⟩

end Mbed

/-! # Theorems -/

/-! ## Bit-level lemmas -/

theorem builtin_parity_le_one (x : Nat) : builtin_parity x ≤ 1 := by
  unfold builtin_parity
  omega

theorem lor_of_even (x p : Nat) (hx : x % 2 = 0) (hp : p ≤ 1) : x ||| p = x + p := by
  rcases Nat.le_one_iff_eq_zero_or_eq_one.mp hp with rfl | rfl
  · simp
  · have h1 : (x ||| 1) / 2 = x / 2 := by
      rw [Nat.or_div_two]
      simp
    have h2 : (x ||| 1) % 2 = 1 := Nat.or_mod_two_eq_one.mpr (Or.inr rfl)
    omega

theorem bitCount_zero (n : Nat) : bitCount n 0 = 0 := by
  induction n with
  | zero => rfl
  | succ n ih => simp [bitCount, ih]

theorem bitCount_of_lt (k : Nat) : ∀ (n x : Nat), x < 2 ^ n → bitCount (n + k) x = bitCount n x := by
  intro n
  induction n with
  | zero =>
    intro x hx
    have : x = 0 := by simpa using hx
    subst this
    simp [bitCount_zero, bitCount]
  | succ n ih =>
    intro x hx
    have hx2 : x / 2 < 2 ^ n := by
      rw [pow_succ] at hx
      omega
    have : n + 1 + k = (n + k) + 1 := by omega
    rw [this]
    simp only [bitCount]
    rw [ih (x / 2) hx2]

/-- Setting bit 0 of an even 16-bit word to its parity yields a word of even
parity whose bit 0 is the parity of the other bits. -/
theorem parity_bit_set (r : Nat) (hr2 : r % 2 = 0) (hr : r < 2 ^ 16) :
    r ||| builtin_parity r = r + builtin_parity r ∧
    r ||| builtin_parity r < 2 ^ 16 ∧
    bitCount 16 (r ||| builtin_parity r) % 2 = 0 ∧
    (r ||| builtin_parity r) % 2 = bitCount 15 ((r ||| builtin_parity r) / 2) % 2 ∧
    builtin_parity (r ||| builtin_parity r) = 0 := by
  have hp := builtin_parity_le_one r
  have hf := lor_of_even r (builtin_parity r) hr2 hp
  have hr15 : r / 2 < 2 ^ 15 := by omega
  have e1 : bitCount 32 r = bitCount 15 (r / 2) := by
    show bitCount (31 + 1) r = _
    simp only [bitCount]
    rw [hr2, Nat.zero_add]
    exact bitCount_of_lt 16 15 (r / 2) hr15
  have hpe : builtin_parity r = bitCount 15 (r / 2) % 2 := by
    unfold builtin_parity
    rw [e1]
  have hm : (r + builtin_parity r) % 2 = builtin_parity r := by omega
  have hd : (r + builtin_parity r) / 2 = r / 2 := by omega
  have e2 : bitCount 16 (r + builtin_parity r) = builtin_parity r + bitCount 15 (r / 2) := by
    show bitCount (15 + 1) _ = _
    simp only [bitCount]
    rw [hm, hd]
  have hlt : r + builtin_parity r < 2 ^ 16 := by omega
  have e3 : bitCount 32 (r + builtin_parity r) = bitCount 16 (r + builtin_parity r) :=
    bitCount_of_lt 16 16 _ hlt
  rw [hf]
  refine ⟨rfl, hlt, ?_, ?_, ?_⟩
  · rw [e2]; omega
  · rw [hm, hd]; exact hpe
  · have : builtin_parity (r + builtin_parity r)
        = bitCount 32 (r + builtin_parity r) % 2 := rfl
    rw [this, e3, e2]
    omega

namespace Mbed

/-! ## Wrap tracking -/

theorem and_0x3FF_of_lt {b : Nat} (hb : b < 1024) : b &&& 0x3FF = b := by
  have h := Nat.and_pow_two_sub_one_eq_mod b 10
  norm_num at h
  rw [h]
  omega

/-- One accepted sample: the continuous position moves by the shortest step. -/
theorem acceptSample_step (H : Header) (hres : H.AS5050_ANGULAR_RESOLUTION = 1024)
    (s : Driver) (a b : Nat) (ha : a < 1024) (hb : b < 1024) (hl : s._last_angle = a)
    (hd : circDist a b ≤ 256) (hx : ¬ (a = 768 ∧ b = 0)) :
    (acceptSample H { s with data := b }).2._last_angle = b ∧
    (acceptSample H { s with data := b }).2.rotations * 1024 + b
      = s.rotations * 1024 + a + shortestStep a b := by
  simp only [acceptSample, trackRollover, hres, and_0x3FF_of_lt hb, hl, shortestStep]
  simp only [circDist, min_le_iff] at hd
  refine ⟨trivial, ?_⟩
  norm_num
  split_ifs <;> omega

/-- Invariant of the tracker along a sequence of accepted samples. -/
theorem feedAccepted_unwrapped (H : Header) (hres : H.AS5050_ANGULAR_RESOLUTION = 1024) :
    ∀ (samples : List Nat) (s : Driver) (a : Nat), a < 1024 → s._last_angle = a →
      (∀ x ∈ samples, x < 1024) →
      List.Chain (fun a b => circDist a b ≤ 256 ∧ ¬ (a = 768 ∧ b = 0)) a samples →
      ∃ l : Nat, l < 1024 ∧ (feedAccepted H s samples)._last_angle = l ∧
        (feedAccepted H s samples).rotations * 1024 + l
          = unwrapped (s.rotations * 1024 + a) a samples := by
  intro samples
  induction samples with
  | nil =>
    intro s a ha hl _ _
    exact ⟨a, ha, hl, rfl⟩
  | cons b rest ih =>
    intro s a ha hl hs hc
    have hb : b < 1024 := hs b (List.mem_cons_self b rest)
    rw [List.chain_cons] at hc
    obtain ⟨⟨hd, hx⟩, hc⟩ := hc
    obtain ⟨h1, h2⟩ := acceptSample_step H hres s a b ha hb hl hd hx
    obtain ⟨l, hl1, hl2, hl3⟩ := ih (acceptSample H { s with data := b }).2 b hb h1
      (fun x hx => hs x (List.mem_cons_of_mem b hx)) hc
    refine ⟨l, hl1, hl2, ?_⟩
    simp only [feedAccepted, unwrapped]
    rw [hl3, h2]

/-- C1 (amended): over accepted samples in [0,1024) whose consecutive pairs
differ by at most one quadrant on the circle and are never the exact forward
quarter turn 768 → 0, starting from `_last_angle = s_0` and `rotations = 0`,
`rotations` ends as the floor of the unwrapped position divided by 1024, in
both directions. -/
theorem wrap_tracking_net_revolutions (H : Header)
    (hres : H.AS5050_ANGULAR_RESOLUTION = 1024) (s : Driver) (s0 : Nat)
    (samples : List Nat) (h0 : s0 < 1024) (hl : s._last_angle = s0)
    (hr : s.rotations = 0) (hs : ∀ x ∈ samples, x < 1024)
    (hq : List.Chain (fun a b => circDist a b ≤ 256 ∧ ¬ (a = 768 ∧ b = 0)) s0 samples) :
    (feedAccepted H s samples).rotations = unwrapped s0 s0 samples / 1024 := by
  obtain ⟨l, hl1, _, hl3⟩ := feedAccepted_unwrapped H hres samples s s0 h0 hl hs hq
  rw [hr] at hl3
  simp only [zero_mul, zero_add] at hl3
  omega

/-- Witness of C1 (amended): the samples 1020, 1022, 2, 5 and back to 1020. -/
theorem wrap_tracking_net_revolutions_witness :
    (feedAccepted AS5050_h (trackerAt 1020 []) [1022, 2, 5, 1020]).rotations
      = unwrapped 1020 1020 [1022, 2, 5, 1020] / 1024 :=
  wrap_tracking_net_revolutions AS5050_h rfl (trackerAt 1020 []) 1020 [1022, 2, 5, 1020]
    (by decide) rfl rfl (by decide)
    (by repeat (first | exact List.Chain.nil | refine List.Chain.cons (by decide) ?_))

/-- C1 (as stated) fails: the forward quarter turn 768 → 0 is one quadrant on
the circle and crosses a revolution, yet `rotations` stays 0; `angle()` itself
behaves so on a response word 0. -/
theorem wrap_tracking_quadrant_counterexample :
    (768 : Nat) < 1024 ∧ (trackerAt 768 [])._last_angle = (768 : Nat) ∧
    (trackerAt 768 []).rotations = 0 ∧ (0 : Nat) < 1024 ∧
    List.Chain (fun a b => circDist a b ≤ 256) 768 [0] ∧
    (feedAccepted AS5050_h (trackerAt 768 []) [0]).rotations = 0 ∧
    unwrapped 768 768 [0] / 1024 = 1 ∧
    (angle AS5050_h (trackerAt 768 [0, 0, 0, 0])).1 = 0 ∧
    (angle AS5050_h (trackerAt 768 [0, 0, 0, 0])).2.rotations = 0 := by
  refine ⟨by decide, rfl, rfl, by decide, List.Chain.cons (by decide) List.Chain.nil,
    by decide, by decide, by decide, by decide⟩

/-! ## The four-sample scenario -/

/-- C2 evaluated: the samples 1020, 1022, 2, 5 fed from `_last_angle = 1020`,
`rotations = 0`.  Carried in bits 11..2 of well-formed response words (even
parity, error flag clear), the calls return 1008, 1008, 1008 and the continuous
angle 1044 with automatic error handling, and 1008, 1017, 9 and 1044 without
it.  Carried in the low ten bits, with automatic error handling, the odd
sample 5 is dropped and the continuous angle is 1026; without it the calls
return 1020, 1022, 2 and 1029. -/
theorem scenario_four_samples_evaluated :
    fourCalls AS5050_h
        (trackerAt 1020 [0, 0x0FF0, 0, 0, 0, 0x0FF9, 0, 0, 0, 0x0009, 0, 0, 0, 0x0014, 0, 0])
      = ([1008, 1008, 1008, 1044], [0, 0, 0, 1]) ∧
    fourCalls { AS5050_h with AS5050_AUTO_ERROR_HANDLING := false }
        (trackerAt 1020 [0, 0x0FF0, 0, 0x0FF9, 0, 0x0009, 0, 0x0014])
      = ([1008, 1017, 9, 1044], [0, 0, 1, 1]) ∧
    fourCalls AS5050_h
        (trackerAt 1020 [0, 1020, 0, 0, 0, 1022, 0, 0, 0, 2, 0, 0, 0, 5, 0, 0])
      = ([1020, 1022, 2, 1026], [0, 0, 1, 1]) ∧
    fourCalls { AS5050_h with AS5050_AUTO_ERROR_HANDLING := false }
        (trackerAt 1020 [0, 1020, 0, 1022, 0, 2, 0, 5])
      = ([1020, 1022, 2, 1029], [0, 0, 1, 1]) := by
  refine ⟨by decide, by decide, by decide, by decide⟩

/-! ## Parity-failed samples -/

/-- C3 evaluated: the response word 0x0400 has a parity fault (bit 0 is 0, one
other bit is set).  With automatic error handling `angle()` called on it from
`_last_angle = 300` returns 0 and stores 0 in `_last_angle`; injected between
the well-formed words 0x012C and 0x0720, which this variant reads as 300 and
800, it makes `rotations` end at -1, where the two words alone leave it at 0. -/
theorem parity_failed_sample_evaluated :
    parityMismatch AS5050_h 0x0400 = 1 ∧
    parityMismatch AS5050_h 0x012C = 0 ∧ parityMismatch AS5050_h 0x0720 = 0 ∧
    (angle AS5050_h (trackerAt 300 [0, 0x0400, 0, 0])).1 = 0 ∧
    (angle AS5050_h (trackerAt 300 [0, 0x0400, 0, 0])).2._last_angle = 0 ∧
    (angleCalls AS5050_h 3
        (trackerAt 300 [0, 0x012C, 0, 0, 0, 0x0400, 0, 0, 0, 0x0720, 0, 0])).rotations = -1 ∧
    (angleCalls AS5050_h 2
        (trackerAt 300 [0, 0x012C, 0, 0, 0, 0x0720, 0, 0])).rotations = 0 := by
  refine ⟨by decide, by decide, by decide, by decide, by decide, by decide, by decide⟩

/-! ## Outbound frames -/

theorem mbed_command_base (c a : Nat) (hc : c = 0x8000 ∨ c = 0) (ha : a < 2 ^ 14) :
    toUInt (a <<< 1) ||| c = c + 2 * a ∧ (toUInt (a <<< 1) ||| c) % 2 = 0 ∧
    toUInt (a <<< 1) ||| c < 2 ^ 16 := by
  have h1 : toUInt (a <<< 1) = 2 * a := by
    unfold toUInt UINT_BITS
    rw [Nat.shiftLeft_eq]
    omega
  rw [h1]
  rcases hc with rfl | rfl
  · have h2 := Nat.mul_add_lt_is_or (show 2 * a < 2 ^ 15 by omega) 1
    rw [Nat.lor_comm] at h2
    norm_num at h2
    rw [← h2]
    omega
  · simp
    omega

theorem mbed_command_frame (c a : Nat) (hc : c = 0x8000 ∨ c = 0) (ha : a < 2 ^ 14) :
    ((toUInt (a <<< 1) ||| c) ||| builtin_parity (toUInt (a <<< 1) ||| c)) >>> 1 &&& 0x3FFF
      = a := by
  obtain ⟨h1, h2, h3⟩ := mbed_command_base c a hc ha
  obtain ⟨h4, -⟩ := parity_bit_set _ h2 h3
  have hp := builtin_parity_le_one (toUInt (a <<< 1) ||| c)
  rw [h4, h1, Nat.shiftRight_eq_div_pow]
  have h5 := Nat.and_pow_two_sub_one_eq_mod ((c + 2 * a + builtin_parity (c + 2 * a)) / 2 ^ 1) 14
  norm_num at h5 ⊢
  rw [h5]
  rw [h1] at hp
  rcases hc with rfl | rfl <;> omega

theorem mbed_data_base (d : Nat) (hd : d < 2 ^ 14) :
    toUInt (d <<< 2) = 4 * d := by
  unfold toUInt UINT_BITS
  rw [Nat.shiftLeft_eq]
  omega

/-- C5: with the read/write bit in bit 15 (`AS_READ = 0x8000`, `AS_WRITE = 0`),
for every 14-bit address `a` and every data value `d < 2^14` the read command
frame, the write address frame and the write data frame are 16-bit words with
an even number of one-bits, their bit 0 is the XOR of the other 15 bits, and
bits 1..14 of the two command frames are the address. -/
theorem outbound_frames_even_parity (H : Header) (hR : H.AS_READ = 0x8000)
    (hW : H.AS_WRITE = 0x0000) (a d : Nat) (ha : a < 2 ^ 14) (hd : d < 2 ^ 14) :
    (readFrame H a < 2 ^ 16 ∧ bitCount 16 (readFrame H a) % 2 = 0 ∧
      readFrame H a % 2 = bitCount 15 (readFrame H a / 2) % 2 ∧
      readFrame H a >>> 1 &&& 0x3FFF = a) ∧
    (writeAddressFrame H a < 2 ^ 16 ∧ bitCount 16 (writeAddressFrame H a) % 2 = 0 ∧
      writeAddressFrame H a % 2 = bitCount 15 (writeAddressFrame H a / 2) % 2 ∧
      writeAddressFrame H a >>> 1 &&& 0x3FFF = a) ∧
    (writeDataFrame d < 2 ^ 16 ∧ bitCount 16 (writeDataFrame d) % 2 = 0 ∧
      writeDataFrame d % 2 = bitCount 15 (writeDataFrame d / 2) % 2) := by
  refine ⟨?_, ?_, ?_⟩
  · obtain ⟨-, h2, h3⟩ := mbed_command_base 0x8000 a (Or.inl rfl) ha
    obtain ⟨-, k1, k2, k3, -⟩ := parity_bit_set _ h2 h3
    simp only [readFrame, hR]
    exact ⟨k1, k2, k3, mbed_command_frame 0x8000 a (Or.inl rfl) ha⟩
  · obtain ⟨-, h2, h3⟩ := mbed_command_base 0 a (Or.inr rfl) ha
    obtain ⟨-, k1, k2, k3, -⟩ := parity_bit_set _ h2 h3
    simp only [writeAddressFrame, hW]
    exact ⟨k1, k2, k3, mbed_command_frame 0 a (Or.inr rfl) ha⟩
  · have h1 := mbed_data_base d hd
    obtain ⟨-, k1, k2, k3, -⟩ :=
      parity_bit_set (toUInt (d <<< 2)) (by rw [h1]; omega) (by rw [h1]; omega)
    simp only [writeDataFrame]
    exact ⟨k1, k2, k3⟩

/-- Witness of C5: the angle register 0x3FFF and the data value 36. -/
theorem outbound_frames_even_parity_witness :
    (readFrame AS5050_h 0x3FFF < 2 ^ 16 ∧ bitCount 16 (readFrame AS5050_h 0x3FFF) % 2 = 0 ∧
      readFrame AS5050_h 0x3FFF % 2 = bitCount 15 (readFrame AS5050_h 0x3FFF / 2) % 2 ∧
      readFrame AS5050_h 0x3FFF >>> 1 &&& 0x3FFF = 0x3FFF) ∧
    (writeAddressFrame AS5050_h 0x3FFF < 2 ^ 16 ∧
      bitCount 16 (writeAddressFrame AS5050_h 0x3FFF) % 2 = 0 ∧
      writeAddressFrame AS5050_h 0x3FFF % 2
        = bitCount 15 (writeAddressFrame AS5050_h 0x3FFF / 2) % 2 ∧
      writeAddressFrame AS5050_h 0x3FFF >>> 1 &&& 0x3FFF = 0x3FFF) ∧
    (writeDataFrame 36 < 2 ^ 16 ∧ bitCount 16 (writeDataFrame 36) % 2 = 0 ∧
      writeDataFrame 36 % 2 = bitCount 15 (writeDataFrame 36 / 2) % 2) :=
  outbound_frames_even_parity AS5050_h rfl rfl 0x3FFF 36 (by decide) (by decide)

end Mbed

namespace Arduino

/-! ## Frame round trip -/

theorem and_0xFFFE (y : Nat) (hy : y < 65536) : y &&& 65534 = y - y % 2 := by
  have h1 : (y &&& 65534) % 2 = 0 := by
    have h := @Nat.and_mod_two_eq_one y 65534
    have : ¬ ((y &&& 65534) % 2 = 1) := by
      rw [h]
      omega
    omega
  have h2 : (y &&& 65534) / 2 = y / 2 := by
    rw [Nat.and_div_two]
    have h := Nat.and_pow_two_sub_one_eq_mod (y / 2) 15
    norm_num at h ⊢
    rw [h]
    omega
  omega

theorem anglePayload_eq (f : Nat) : anglePayload f = f / 4 % 4096 := by
  unfold anglePayload
  rw [Nat.shiftRight_eq_div_pow]
  have h0 : (f &&& 0x3FFE) / 2 ^ 2 = (f &&& 0x3FFE) / 2 / 2 := by
    rw [Nat.div_div_eq_div_mul]
    rfl
  rw [h0, Nat.and_div_two, Nat.and_div_two]
  have h := Nat.and_pow_two_sub_one_eq_mod (f / 2 / 2) 12
  norm_num at h ⊢
  rw [h, Nat.div_div_eq_div_mul]

/-- C4: for every payload `d < 4096` the data frame built by `write()` gives
back `d` under the payload extraction `(f & 0x3FFE) >> 2` of `raw_angle()`, and
the response parity check of `read()`/`write()`, with `RES_PARITY` bit 0,
reports no parity error on it. -/
theorem write_frame_round_trip (H : Header) (hP : H.RES_PARITY = 0x1) (d : Nat)
    (hd : d < 4096) :
    anglePayload (writeDataFrame d) = d ∧ parityMismatch H (writeDataFrame d) = 0 := by
  have h1 : toUInt (d <<< 2) = 4 * d := by
    unfold toUInt UINT_BITS
    rw [Nat.shiftLeft_eq]
    omega
  obtain ⟨h2, h3, -⟩ :=
    parity_bit_set (toUInt (d <<< 2)) (by rw [h1]; omega) (by rw [h1]; omega)
  have hp := builtin_parity_le_one (toUInt (d <<< 2))
  have hf : writeDataFrame d = toUInt (d <<< 2) + builtin_parity (toUInt (d <<< 2)) := h2
  constructor
  · rw [anglePayload_eq, hf, h1]
    rw [h1] at hp
    omega
  · unfold parityMismatch bitNot UINT_BITS neFlag
    rw [hP, Nat.and_one_is_mod]
    have e : (2 ^ 16 - 1 - 1 : Nat) = 65534 := by norm_num
    rw [e, and_0xFFFE _ (by rw [hf]; omega)]
    have e1 : writeDataFrame d - writeDataFrame d % 2 = toUInt (d <<< 2) := by
      rw [hf, h1]
      rw [h1] at hp
      omega
    have e2 : writeDataFrame d % 2 = builtin_parity (toUInt (d <<< 2)) := by
      rw [hf, h1]
      rw [h1] at hp
      omega
    rw [e1, e2]
    simp

/-- Witness of C4: the payload 2730. -/
theorem write_frame_round_trip_witness :
    anglePayload (writeDataFrame 2730) = 2730 ∧
    parityMismatch AS5050_h (writeDataFrame 2730) = 0 :=
  write_frame_round_trip AS5050_h rfl 2730 (by decide)

end Arduino

namespace Mbed

/-! ## Transactions -/

theorem mbed_read_bus (H : Header) (reg : Nat) (s : Driver) :
    (read H reg s).1 = s.bus.reply 1 ∧
    (read H reg s).2.bus.tx = s.bus.tx ++ readExchanges H reg ∧
    (read H reg s).2.bus.rx = s.bus.rx.drop 2 := by
  refine ⟨?_, ?_, ?_⟩
  · simp [read, send, Bus.transferWord, Bus.reply]
  · simp [read, send, Bus.transferWord, readExchanges]
  · simp [read, send, Bus.transferWord]
    cases s.bus.rx <;> simp

theorem mbed_write_bus (H : Header) (reg data : Nat) (s : Driver) :
    (write H reg data s).1 = s.bus.reply 2 ∧
    (write H reg data s).2.bus.tx = s.bus.tx ++ writeExchanges H reg data ∧
    (write H reg data s).2.bus.rx = s.bus.rx.drop 3 := by
  refine ⟨?_, ?_, ?_⟩
  · simp [write, send, Bus.transferWord, Bus.reply]
  · simp [write, send, Bus.transferWord, writeExchanges]
  · simp [write, send, Bus.transferWord]
    rcases s.bus.rx with _ | ⟨a, _ | ⟨b, l⟩⟩ <;> simp

theorem mbed_read_status (H : Header) (reg : Nat) (s : Driver) :
    (read H reg s).2.error.status = s.error.status := by
  simp [read, send]

theorem mbed_write_status (H : Header) (reg data : Nat) (s : Driver) :
    (write H reg data s).2.error.status = s.error.status := by
  simp [write, send]

theorem reply_drop (b : Bus) (k i : Nat) :
    Bus.reply { rx := b.rx.drop k, tx := b.tx } i = b.reply (k + i) := by
  simp [Bus.reply, List.drop_drop, Nat.add_comm]

theorem mbed_adjustGain_bus (H : Header) (step : Int) (s : Driver) :
    (adjustGain H step s).bus.tx = s.bus.tx ++ readExchanges H H.REG_GAIN_CONTROL
      ++ writeExchanges H H.REG_GAIN_CONTROL (intToUInt ((s.bus.reply 1 : Nat) + step)) ∧
    (adjustGain H step s).bus.rx = s.bus.rx.drop 5 ∧
    (adjustGain H step s).error.status = s.error.status := by
  obtain ⟨h1, h2, h3⟩ := mbed_read_bus H H.REG_GAIN_CONTROL s
  refine ⟨?_, ?_, ?_⟩
  rotate_left 2
  · unfold adjustGain
    simp only []
    rw [mbed_write_status, mbed_read_status]
  · unfold adjustGain
    simp only []
    rw [(mbed_write_bus H _ _ _).2.1, h2, h1]
  · unfold adjustGain
    simp only []
    rw [(mbed_write_bus H _ _ _).2.2, h3, List.drop_drop]

/-! ## Gain too high -/

theorem mbed_correctFaults_gain_high (H : Header) (s : Driver)
    (hhi : s.error.status &&& H.ERR_DSPAHI ≠ 0)
    (hwow : s.error.status &&& H.ERR_WOW = 0) (hov : s.error.status &&& H.ERR_DSPOV = 0) :
    correctFaults H s = adjustGain H (-1) s := by
  have h3 := (mbed_adjustGain_bus H (-1) s).2.2
  unfold correctFaults
  simp only [hhi, ne_eq, not_false_eq_true, if_true, h3, hwow, hov, not_true_eq_false,
    if_false]

/-- C6: when `error.status` has `ERR_DSPAHI` set and none of `ERR_PARITY`,
`ERR_WOW`, `ERR_DSPOV`, `handleErrors()` sends exactly the exchanges of one read
of the gain-control register, one write of the gain-control register with the
data (gain read) - 1, and one clear-error read, followed only by the master
reset if the clear-error read is non-zero and reset-on-errors is enabled; it
returns the word of the clear-error read, so 0 when that word is 0. -/
theorem gain_too_high_scenario (H : Header) (s : Driver)
    (hhi : s.error.status &&& H.ERR_DSPAHI ≠ 0) (hpar : s.error.status &&& H.ERR_PARITY = 0)
    (hwow : s.error.status &&& H.ERR_WOW = 0) (hov : s.error.status &&& H.ERR_DSPOV = 0) :
    (handleErrors H s).2.bus.tx
      = s.bus.tx ++ readExchanges H H.REG_GAIN_CONTROL
          ++ writeExchanges H H.REG_GAIN_CONTROL (intToUInt ((s.bus.reply 1 : Nat) - 1))
          ++ readExchanges H H.REG_CLEAR_ERROR
          ++ (if H.AS5050_RESET_ON_ERRORS = true ∧ s.bus.reply 6 ≠ 0
                then writeExchanges H H.REG_MASTER_RESET 0x0 else []) ∧
    (handleErrors H s).1 = s.bus.reply 6 ∧
    (s.bus.reply 6 = 0 →
      (handleErrors H s).1 = 0 ∧
      (handleErrors H s).2.bus.tx
        = s.bus.tx ++ readExchanges H H.REG_GAIN_CONTROL
            ++ writeExchanges H H.REG_GAIN_CONTROL (intToUInt ((s.bus.reply 1 : Nat) - 1))
            ++ readExchanges H H.REG_CLEAR_ERROR) := by
  have hne : s.error.status ≠ 0 := by
    intro h
    rw [h] at hhi
    simp at hhi
  obtain ⟨g1, g2, -⟩ := mbed_adjustGain_bus H (-1) s
  obtain ⟨r1, r2, -⟩ := mbed_read_bus H H.REG_CLEAR_ERROR (adjustGain H (-1) s)
  have r1' : (read H H.REG_CLEAR_ERROR (adjustGain H (-1) s)).1 = s.bus.reply 6 := by
    rw [r1]
    simp only [Bus.reply, g2, List.drop_drop]
  have key : handleErrors H s =
      (let r := read H H.REG_CLEAR_ERROR (adjustGain H (-1) s)
       let t : Driver := { r.2 with error := { r.2.error with status := r.1 } }
       let u : Driver :=
         if H.AS5050_RESET_ON_ERRORS = true ∧ t.error.status ≠ 0 then
           (write H H.REG_MASTER_RESET 0x0 t).2
         else t
       (u.error.status, u)) := by
    unfold handleErrors
    simp only [hne, ne_eq, not_false_eq_true, if_true, hpar, not_true_eq_false, if_false,
      mbed_correctFaults_gain_high H s hhi hwow hov]
  have tx7 : (read H H.REG_CLEAR_ERROR (adjustGain H (-1) s)).2.bus.tx
      = s.bus.tx ++ readExchanges H H.REG_GAIN_CONTROL
          ++ writeExchanges H H.REG_GAIN_CONTROL (intToUInt ((s.bus.reply 1 : Nat) - 1))
          ++ readExchanges H H.REG_CLEAR_ERROR := by
    rw [r2, g1]
    rfl
  have main : (handleErrors H s).2.bus.tx
      = s.bus.tx ++ readExchanges H H.REG_GAIN_CONTROL
          ++ writeExchanges H H.REG_GAIN_CONTROL (intToUInt ((s.bus.reply 1 : Nat) - 1))
          ++ readExchanges H H.REG_CLEAR_ERROR
          ++ (if H.AS5050_RESET_ON_ERRORS = true ∧ s.bus.reply 6 ≠ 0
                then writeExchanges H H.REG_MASTER_RESET 0x0 else []) ∧
      (handleErrors H s).1 = s.bus.reply 6 := by
    rw [key]
    simp only [r1']
    by_cases hc : H.AS5050_RESET_ON_ERRORS = true ∧ s.bus.reply 6 ≠ 0
    · simp only [hc, and_self, ne_eq, not_false_eq_true, if_true]
      refine ⟨?_, ?_⟩
      · rw [(mbed_write_bus H _ _ _).2.1]
        exact congrArg (· ++ writeExchanges H H.REG_MASTER_RESET 0x0) tx7
      · rw [mbed_write_status]
    · simp only [hc, if_false, List.append_nil]
      exact ⟨tx7, trivial⟩
  refine ⟨main.1, main.2, ?_⟩
  intro h0
  refine ⟨by rw [main.2, h0], ?_⟩
  rw [main.1]
  simp [h0]

/-- Witness of C6: gain 37 is read, 36 is written, the clear-error read is 0. -/
theorem gain_too_high_scenario_witness :
    (handleErrors AS5050_h gainHighState).1 = 0 ∧
    (handleErrors AS5050_h gainHighState).2.bus.tx
      = gainHighState.bus.tx ++ readExchanges AS5050_h AS5050_h.REG_GAIN_CONTROL
          ++ writeExchanges AS5050_h AS5050_h.REG_GAIN_CONTROL
              (intToUInt ((gainHighState.bus.reply 1 : Int) - 1))
          ++ readExchanges AS5050_h AS5050_h.REG_CLEAR_ERROR :=
  (gain_too_high_scenario AS5050_h gainHighState (by decide) (by decide) (by decide)
    (by decide)).2.2 (by decide)

/-! ## Filtered sampling -/

end Mbed

/-! ## Home -/

/-- C8 evaluated: a driver at rest on its home sample, three revolutions away,
reads delta 3072; after `setHome()` the next `deltaAngle()` on the same sensor
word returns the raw angle itself, 816 in `src/src/AS5050.cpp` and 204 in
`src/AS5050.cpp`, not 0. -/
theorem setHome_deltaAngle_evaluated :
    (Mbed.deltaAngle AS5050_h Mbed.awayFromHome).1 = 3072 ∧
    (Mbed.angle AS5050_h (Mbed.setHome Mbed.awayFromHome)).1
      = (Mbed.setHome Mbed.awayFromHome)._last_angle ∧
    (Mbed.deltaAngle AS5050_h (Mbed.setHome Mbed.awayFromHome)).1 = 816 ∧
    (Arduino.deltaAngle AS5050_h Arduino.awayFromHome).1 = 3072 ∧
    (Arduino.angle AS5050_h (Arduino.setHome Arduino.awayFromHome)).1
      = (Arduino.setHome Arduino.awayFromHome)._last_angle ∧
    (Arduino.deltaAngle AS5050_h (Arduino.setHome Arduino.awayFromHome)).1 = 204 := by
  refine ⟨by decide, by decide, by decide, by decide, by decide, by decide⟩

/-- C9: `setHome()` sets `rotations` and `_init_angle` to 0 and leaves every
other field, the transport included, as it was, in both variants. -/
theorem setHome_frame (m : Mbed.Driver) (a : Arduino.Driver) :
    ((Mbed.setHome m).rotations = 0 ∧ (Mbed.setHome m)._init_angle = 0 ∧
      (Mbed.setHome m)._last_angle = m._last_angle ∧
      (Mbed.setHome m).mirrored = m.mirrored ∧ (Mbed.setHome m).data = m.data ∧
      (Mbed.setHome m).error = m.error ∧ (Mbed.setHome m).bus = m.bus) ∧
    ((Arduino.setHome a).rotations = 0 ∧ (Arduino.setHome a)._init_angle = 0 ∧
      (Arduino.setHome a)._last_angle = a._last_angle ∧
      (Arduino.setHome a).mirror = a.mirror ∧ (Arduino.setHome a).gain = a.gain ∧
      (Arduino.setHome a)._pin = a._pin ∧
      (Arduino.setHome a).error = a.error ∧ (Arduino.setHome a).bus = a.bus) :=
  ⟨⟨rfl, rfl, rfl, rfl, rfl, rfl, rfl⟩, ⟨rfl, rfl, rfl, rfl, rfl, rfl, rfl, rfl⟩⟩

/-! ## Exchange sequence -/

/-- C10: `read(a)` performs exactly two exchanges, the read frame of `a` and
then the NOP frame, and returns the word received in the second; `write(a, d)`
performs exactly three, the write-address frame, the data frame and the NOP
frame, and returns the word received in the third; in both variants. -/
theorem exchange_sequence (H : Header) (a d : Nat) (m : Mbed.Driver) (r : Arduino.Driver) :
    ((Mbed.read H a m).2.bus.tx = m.bus.tx ++ [Mbed.readFrame H a % 65536, H.REG_NOP % 65536] ∧
      (Mbed.read H a m).2.bus.rx = m.bus.rx.drop 2 ∧
      (Mbed.read H a m).1 = m.bus.reply 1) ∧
    ((Mbed.write H a d m).2.bus.tx
        = m.bus.tx ++ [Mbed.writeAddressFrame H a % 65536, Mbed.writeDataFrame d % 65536,
                       H.REG_NOP % 65536] ∧
      (Mbed.write H a d m).2.bus.rx = m.bus.rx.drop 3 ∧
      (Mbed.write H a d m).1 = m.bus.reply 2) ∧
    ((Arduino.read H a r).2.bus.tx
        = r.bus.tx ++ [Arduino.readFrame H a % 65536, H.REG_NOP % 65536] ∧
      (Arduino.read H a r).2.bus.rx = r.bus.rx.drop 2 ∧
      (Arduino.read H a r).1 = r.bus.reply 1) ∧
    ((Arduino.write H a d r).2.bus.tx
        = r.bus.tx ++ [Arduino.writeAddressFrame H a % 65536, Arduino.writeDataFrame d % 65536,
                       H.REG_NOP % 65536] ∧
      (Arduino.write H a d r).2.bus.rx = r.bus.rx.drop 3 ∧
      (Arduino.write H a d r).1 = r.bus.reply 2) := by
  refine ⟨⟨?_, ?_, ?_⟩, ⟨?_, ?_, ?_⟩, ⟨?_, ?_, ?_⟩, ⟨?_, ?_, ?_⟩⟩
  · simp [Mbed.read, Mbed.send, Bus.transferWord]
  · simp only [Mbed.read, Mbed.send, Bus.transferWord]
    rcases m.bus.rx with _ | ⟨x, _ | ⟨y, l⟩⟩ <;> rfl
  · simp [Mbed.read, Mbed.send, Bus.transferWord, Bus.reply]
  · simp [Mbed.write, Mbed.send, Bus.transferWord]
  · simp only [Mbed.write, Mbed.send, Bus.transferWord]
    rcases m.bus.rx with _ | ⟨x, _ | ⟨y, _ | ⟨z, l⟩⟩⟩ <;> rfl
  · simp [Mbed.write, Mbed.send, Bus.transferWord, Bus.reply]
  · simp [Arduino.read, Arduino.send, Bus.transferWord]
  · simp only [Arduino.read, Arduino.send, Bus.transferWord]
    rcases r.bus.rx with _ | ⟨x, _ | ⟨y, l⟩⟩ <;> rfl
  · simp [Arduino.read, Arduino.send, Bus.transferWord, Bus.reply]
  · simp [Arduino.write, Arduino.send, Bus.transferWord]
  · simp only [Arduino.write, Arduino.send, Bus.transferWord]
    rcases r.bus.rx with _ | ⟨x, _ | ⟨y, _ | ⟨z, l⟩⟩⟩ <;> rfl
  · simp [Arduino.write, Arduino.send, Bus.transferWord, Bus.reply]

/-! ## Structural lemmas

The lemmas of this section never compute a parity, so `bitCount` is kept
folded while they are proved. -/

section Structural

attribute [local irreducible] bitCount

namespace Mbed

/-! ## Shape of one call of `angle()` -/

theorem mbed_read_fields (H : Header) (reg : Nat) (s : Driver) :
    (read H reg s).2._last_angle = s._last_angle ∧
    (read H reg s).2.rotations = s.rotations ∧
    (read H reg s).2._init_angle = s._init_angle ∧
    (read H reg s).2.data = s.data := by
  simp [read, send]

theorem mbed_write_fields (H : Header) (reg data : Nat) (s : Driver) :
    (write H reg data s).2._last_angle = s._last_angle ∧
    (write H reg data s).2.rotations = s.rotations ∧
    (write H reg data s).2._init_angle = s._init_angle ∧
    (write H reg data s).2.data = s.data := by
  simp [write, send]

/-- One call of `angle()` either drops the response and keeps the tracker, or
takes the low ten bits of the response word as the new sample. -/
theorem mbed_angle_cases (H : Header) (s : Driver) :
    ((angle H s).1 = s._last_angle ∧ (angle H s).2._last_angle = s._last_angle ∧
      (angle H s).2.rotations = s.rotations) ∨
    ((angle H s).1 = ((s.bus.reply 1 &&& 0x3FF : Nat) : Int) ∧
      (angle H s).2._last_angle = ((s.bus.reply 1 &&& 0x3FF : Nat) : Int) ∧
      (angle H s).2.rotations
        = trackRollover H s._last_angle s.rotations (s.bus.reply 1 &&& 0x3FF)) := by
  have h1 := (mbed_read_bus H H.REG_ANGLE s).1
  simp only [angle]
  split_ifs
  · left
    simp [read, send]
  · right
    simp only [acceptSample, mbed_read_fields, h1, and_self]
  · right
    simp only [acceptSample, mbed_read_fields, h1, and_self]

/-! ## Turn count and range of the last sample -/

/-- C15: with resolution 1024, one call of `angle()` changes `rotations` by
-1, 0 or +1; by +1 only if the previous sample is above 768 and the new sample
(the low ten bits of the response) is at most 256, by -1 only if the previous
sample is below 256 and the new sample is at least 768; the two conditions
exclude each other, and when neither holds `rotations` is unchanged. -/
theorem turn_count_single_step (H : Header) (hres : H.AS5050_ANGULAR_RESOLUTION = 1024)
    (s : Driver) :
    ((angle H s).2.rotations - s.rotations = -1 ∨ (angle H s).2.rotations - s.rotations = 0 ∨
      (angle H s).2.rotations - s.rotations = 1) ∧
    ((angle H s).2.rotations - s.rotations = 1 →
      s._last_angle > 768 ∧ ((s.bus.reply 1 &&& 0x3FF : Nat) : Int) ≤ 256) ∧
    ((angle H s).2.rotations - s.rotations = -1 →
      s._last_angle < 256 ∧ ((s.bus.reply 1 &&& 0x3FF : Nat) : Int) ≥ 768) ∧
    ¬ ((s._last_angle > 768 ∧ ((s.bus.reply 1 &&& 0x3FF : Nat) : Int) ≤ 256) ∧
        (s._last_angle < 256 ∧ ((s.bus.reply 1 &&& 0x3FF : Nat) : Int) ≥ 768)) ∧
    (¬ (s._last_angle > 768 ∧ ((s.bus.reply 1 &&& 0x3FF : Nat) : Int) ≤ 256) →
      ¬ (s._last_angle < 256 ∧ ((s.bus.reply 1 &&& 0x3FF : Nat) : Int) ≥ 768) →
      (angle H s).2.rotations - s.rotations = 0) := by
  rcases mbed_angle_cases H s with ⟨-, -, h⟩ | ⟨-, -, h⟩
  · rw [h]
    refine ⟨by omega, by omega, by omega, by omega, by omega⟩
  · rw [h]
    simp only [trackRollover, hres]
    norm_num
    split_ifs <;> omega

theorem mbed_angle_range (H : Header) (s : Driver) (h0 : 0 ≤ s._last_angle)
    (h1 : s._last_angle < 1024) :
    (0 ≤ (angle H s).2._last_angle ∧ (angle H s).2._last_angle < 1024) ∧
    (0 ≤ (angle H s).1 ∧ (angle H s).1 < 1024) := by
  have hw : s.bus.reply 1 &&& 0x3FF < 2 ^ 10 :=
    Nat.and_lt_two_pow (s.bus.reply 1) (by norm_num)
  rcases mbed_angle_cases H s with ⟨ha, hb, -⟩ | ⟨ha, hb, -⟩
  · rw [ha, hb]
    exact ⟨⟨h0, h1⟩, ⟨h0, h1⟩⟩
  · rw [ha, hb]
    norm_num at hw
    omega

theorem mbed_angleSamples_range (H : Header) :
    ∀ (n : Nat) (s : Driver), 0 ≤ s._last_angle → s._last_angle < 1024 →
      0 ≤ (angleSamples H n s).2._last_angle ∧ (angleSamples H n s).2._last_angle < 1024 := by
  intro n
  induction n with
  | zero =>
    intro s h0 h1
    exact ⟨h0, h1⟩
  | succ n ih =>
    intro s h0 h1
    obtain ⟨⟨k0, k1⟩, -⟩ := mbed_angle_range H s h0 h1
    exact ih (angle H s).2 k0 k1

theorem mbed_adjustGain_last_angle (H : Header) (step : Int) (s : Driver) :
    (adjustGain H step s)._last_angle = s._last_angle := by
  simp [adjustGain, mbed_write_fields, mbed_read_fields]

theorem mbed_correctFaults_last_angle (H : Header) (s : Driver) :
    (correctFaults H s)._last_angle = s._last_angle := by
  simp only [correctFaults]
  split_ifs <;> simp [mbed_adjustGain_last_angle, mbed_write_fields]

theorem mbed_handleErrors_last_angle (H : Header) (s : Driver) :
    (handleErrors H s).2._last_angle = s._last_angle := by
  simp only [handleErrors]
  split_ifs <;> simp [mbed_correctFaults_last_angle, mbed_write_fields, mbed_read_fields]

/-- C16: if `_last_angle` is in [0,1024), it is still there after `angle()`,
after `angle(nsamples)`, after `setHome()` and after `handleErrors()`, whatever
the sensor answers, and the value returned by `angle()` is in [0,1024). -/
theorem last_angle_range (H : Header) (s : Driver) (nsamples : Nat)
    (h0 : 0 ≤ s._last_angle) (h1 : s._last_angle < 1024) :
    (0 ≤ (angle H s).2._last_angle ∧ (angle H s).2._last_angle < 1024) ∧
    (0 ≤ (angle H s).1 ∧ (angle H s).1 < 1024) ∧
    (0 ≤ (angleN H nsamples s).2._last_angle ∧ (angleN H nsamples s).2._last_angle < 1024) ∧
    (0 ≤ (setHome s)._last_angle ∧ (setHome s)._last_angle < 1024) ∧
    (0 ≤ (handleErrors H s).2._last_angle ∧ (handleErrors H s).2._last_angle < 1024) := by
  obtain ⟨ha, hb⟩ := mbed_angle_range H s h0 h1
  refine ⟨ha, hb, mbed_angleSamples_range H nsamples s h0 h1, ⟨h0, h1⟩, ?_⟩
  rw [mbed_handleErrors_last_angle]
  exact ⟨h0, h1⟩

/-! ## Residual status and advisory faults -/

theorem mbed_handleErrors_eq (H : Header) (s : Driver) (hne : s.error.status ≠ 0)
    (hpar : s.error.status &&& H.ERR_PARITY = 0) :
    handleErrors H s =
      (let r := read H H.REG_CLEAR_ERROR (correctFaults H s)
       let t : Driver := { r.2 with error := { r.2.error with status := r.1 } }
       let u : Driver :=
         if H.AS5050_RESET_ON_ERRORS = true ∧ t.error.status ≠ 0 then
           (write H H.REG_MASTER_RESET 0x0 t).2
         else t
       (u.error.status, u)) := by
  unfold handleErrors
  simp only [hne, ne_eq, not_false_eq_true, if_true, hpar, not_true_eq_false, if_false]

theorem mbed_handleErrors_residual (H : Header) (s : Driver) (hne : s.error.status ≠ 0)
    (hpar : s.error.status &&& H.ERR_PARITY = 0) :
    (handleErrors H s).2.bus.tx
      = (correctFaults H s).bus.tx ++ readExchanges H H.REG_CLEAR_ERROR
          ++ (if H.AS5050_RESET_ON_ERRORS = true ∧ (correctFaults H s).bus.reply 1 ≠ 0
                then writeExchanges H H.REG_MASTER_RESET 0x0 else []) ∧
    (handleErrors H s).2.error.status = (correctFaults H s).bus.reply 1 ∧
    (handleErrors H s).1 = (correctFaults H s).bus.reply 1 := by
  obtain ⟨r1, r2, -⟩ := mbed_read_bus H H.REG_CLEAR_ERROR (correctFaults H s)
  rw [mbed_handleErrors_eq H s hne hpar]
  simp only [r1]
  by_cases hc : H.AS5050_RESET_ON_ERRORS = true ∧ (correctFaults H s).bus.reply 1 ≠ 0
  · simp only [hc, and_self, ne_eq, not_false_eq_true, if_true]
    refine ⟨?_, ?_⟩
    · rw [(mbed_write_bus H _ _ _).2.1]
      exact congrArg (· ++ writeExchanges H H.REG_MASTER_RESET 0x0) r2
    · rw [mbed_write_status]
  · simp only [hc, if_false, List.append_nil]
    exact ⟨r2, trivial, trivial⟩

/-- C11: entered with a non-zero `error.status` without the parity bit,
`handleErrors()` sends, after the corrective actions, exactly the two exchanges
of one clear-error read (followed only by the master reset of the
persistent-error policy), stores the word of that read in `error.status` and
returns it; the return value is 0 exactly when that word is 0. -/
theorem residual_status (H : Header) (s : Driver) (hne : s.error.status ≠ 0)
    (hpar : s.error.status &&& H.ERR_PARITY = 0) :
    (handleErrors H s).2.bus.tx
      = (correctFaults H s).bus.tx ++ readExchanges H H.REG_CLEAR_ERROR
          ++ (if H.AS5050_RESET_ON_ERRORS = true ∧ (correctFaults H s).bus.reply 1 ≠ 0
                then writeExchanges H H.REG_MASTER_RESET 0x0 else []) ∧
    (handleErrors H s).2.error.status = (correctFaults H s).bus.reply 1 ∧
    (handleErrors H s).1 = (correctFaults H s).bus.reply 1 ∧
    ((handleErrors H s).1 = 0 ↔ (correctFaults H s).bus.reply 1 = 0) := by
  obtain ⟨m1, m2, m3⟩ := mbed_handleErrors_residual H s hne hpar
  exact ⟨m1, m2, m3, by rw [m3]⟩

theorem and_eq_zero_of_subset (x m e : Nat) (hx : x &&& m = x) (hd : m &&& e = 0) :
    x &&& e = 0 := by
  rw [← hx, Nat.and_assoc, hd, Nat.and_zero]

theorem mbed_correctFaults_none (H : Header) (s : Driver)
    (hhi : s.error.status &&& H.ERR_DSPAHI = 0) (hlo : s.error.status &&& H.ERR_DSPALO = 0)
    (hwow : s.error.status &&& H.ERR_WOW = 0) (hov : s.error.status &&& H.ERR_DSPOV = 0) :
    correctFaults H s = s := by
  unfold correctFaults
  simp only [hhi, hlo, hwow, hov, ne_eq, not_true_eq_false, if_false]

/-- C12: let the advisory masks share no bit with `ERR_PARITY`, `ERR_DSPAHI`,
`ERR_DSPALO`, `ERR_WOW` and `ERR_DSPOV`.  For every `error.status` whose set
bits are all advisory, `handleErrors()` sends no exchange of a gain-control
read or write and no software reset: a non-zero status sends exactly the two
exchanges of the clear-error read, followed only by the master reset of the
persistent-error policy, and a zero status sends nothing. -/
theorem advisory_faults_not_corrected (H : Header) (s : Driver)
    (hpar : advisoryMask H &&& H.ERR_PARITY = 0) (hhi : advisoryMask H &&& H.ERR_DSPAHI = 0)
    (hlo : advisoryMask H &&& H.ERR_DSPALO = 0) (hwow : advisoryMask H &&& H.ERR_WOW = 0)
    (hov : advisoryMask H &&& H.ERR_DSPOV = 0)
    (hadv : s.error.status &&& advisoryMask H = s.error.status) :
    correctFaults H s = s ∧
    (s.error.status ≠ 0 →
      (handleErrors H s).2.bus.tx
        = s.bus.tx ++ readExchanges H H.REG_CLEAR_ERROR
            ++ (if H.AS5050_RESET_ON_ERRORS = true ∧ s.bus.reply 1 ≠ 0
                  then writeExchanges H H.REG_MASTER_RESET 0x0 else [])) ∧
    (s.error.status = 0 → (handleErrors H s).2.bus.tx = s.bus.tx) := by
  have k1 := and_eq_zero_of_subset _ _ _ hadv hpar
  have k2 := and_eq_zero_of_subset _ _ _ hadv hhi
  have k3 := and_eq_zero_of_subset _ _ _ hadv hlo
  have k4 := and_eq_zero_of_subset _ _ _ hadv hwow
  have k5 := and_eq_zero_of_subset _ _ _ hadv hov
  have hc := mbed_correctFaults_none H s k2 k3 k4 k5
  refine ⟨hc, ?_, ?_⟩
  · intro hne
    have h := (mbed_handleErrors_residual H s hne k1).1
    rw [hc] at h
    exact h
  · intro h0
    unfold handleErrors
    simp only [h0, ne_eq, not_true_eq_false, if_false]

end Mbed

theorem lor_right_eq_zero {a b : Nat} (h : a ||| b = 0) : b = 0 := by
  apply Nat.eq_of_testBit_eq
  intro i
  have h2 := congrArg (fun x => x.testBit i) h
  simp only [Nat.testBit_or, Nat.zero_testBit, Bool.or_eq_false_iff] at h2
  simp [h2.2]

namespace Mbed

/-- With automatic error handling and a non-zero alarm mask, every call of
`angle()` reads the error-status register after the angle register, whatever
the response. -/
theorem mbed_angle_status_read (H : Header) (s : Driver)
    (hauto : H.AS5050_AUTO_ERROR_HANDLING = true)
    (halarm : H.RES_ALARM_HIGH ||| H.RES_ALARM_LOW ≠ 0) :
    (angle H s).2.bus.tx
      = s.bus.tx ++ readExchanges H H.REG_ANGLE ++ readExchanges H H.REG_ERROR_STATUS := by
  have hne : ∀ x : Nat, x ||| H.RES_ALARM_HIGH ||| H.RES_ALARM_LOW ≠ 0 := by
    intro x h
    rw [Nat.or_assoc] at h
    exact halarm (lor_right_eq_zero h)
  have h2 := (mbed_read_bus H H.REG_ANGLE s).2.1
  simp only [angle, hauto, hne, ne_eq, not_false_eq_true, and_self, if_true]
  split_ifs <;> simp [acceptSample, (mbed_read_bus H _ _).2.1, h2]

end Mbed

namespace Arduino

theorem arduino_read_facts (H : Header) (reg : Nat) (s : Driver) :
    (read H reg s).1 = s.bus.reply 1 ∧
    (read H reg s).2.mirror = s.mirror ∧
    (read H reg s).2.error.parity = parityMismatch H (s.bus.reply 1) := by
  simp [read, send, Bus.transferWord, Bus.reply]

/-- With `mirror` set, `raw_angle()` returns the resolution minus the payload
of the response. -/
theorem arduino_raw_angle_mirror (H : Header) (s : Driver) (hm : s.mirror = true) :
    (raw_angle H s).1
      = (H.AS5050_ANGULAR_RESOLUTION : Int) - ((anglePayload (s.bus.reply 1) : Nat) : Int) := by
  obtain ⟨h1, h2, -⟩ := arduino_read_facts H H.REG_ANGLE s
  simp only [raw_angle]
  split_ifs <;> simp_all

/-- Without automatic error handling, an iteration of the sampling loop whose
angle read has a parity mismatch adds `last_sample` and keeps `_rotations`, and
an iteration whose angle read has correct parity uses the fresh angle. -/
theorem arduino_angleIter_auto_off (H : Header) (l : Loop) (s : Driver)
    (hauto : H.AS5050_AUTO_ERROR_HANDLING = false) :
    (parityMismatch H (s.bus.reply 1) ≠ 0 →
      (angleIter H l s).1
        = ⟨intToUInt ((l.anglesum : Int) + l.last_sample), l.last_sample, l._rotations⟩) ∧
    (parityMismatch H (s.bus.reply 1) = 0 →
      (angleIter H l s).1.last_sample = (raw_angle H s).1 ∧
      (angleIter H l s).1.anglesum = intToUInt ((l.anglesum : Int) + (raw_angle H s).1)) := by
  obtain ⟨-, -, h3⟩ := arduino_read_facts H H.REG_ANGLE s
  have hr : (raw_angle H s).2 = (read H H.REG_ANGLE s).2 := by
    simp [raw_angle, hauto]
  constructor
  · intro hp
    have hp2 : (raw_angle H s).2.error.parity ≠ 0 := by
      rw [hr, h3]
      exact hp
    simp only [angleIter, hp2, ne_eq, not_false_eq_true, if_true]
    have e1 : ¬ (l.last_sample > 768 ∧ l.last_sample ≤ 256) := by omega
    have e2 : ¬ (l.last_sample < 256 ∧ l.last_sample ≥ 768) := by omega
    simp only [e1, e2, if_false]
  · intro hp
    have hp2 : (raw_angle H s).2.error.parity = 0 := by
      rw [hr, h3]
      exact hp
    simp only [angleIter, hp2, ne_eq, not_true_eq_false, if_false, and_self]

end Arduino

end Structural

namespace Mbed

/-! ## Witnesses -/

/-- Witness of C15: the step 1022 → 2 counts one revolution up. -/
theorem turn_count_single_step_witness :
    (angle AS5050_h (trackerAt 1022 [0, 2, 0, 0])).2.rotations
        - (trackerAt 1022 [0, 2, 0, 0]).rotations = 1 ∧
    (trackerAt 1022 [0, 2, 0, 0])._last_angle > 768 ∧
    (((trackerAt 1022 [0, 2, 0, 0]).bus.reply 1 &&& 0x3FF : Nat) : Int) ≤ 256 :=
  ⟨by decide,
    (turn_count_single_step AS5050_h rfl (trackerAt 1022 [0, 2, 0, 0])).2.1 (by decide)⟩

/-- Witness of C16: a driver at rest on 1000 that receives the word 0x0FF0. -/
theorem last_angle_range_witness :
    (0 ≤ (angle AS5050_h (trackerAt 1000 [0, 0x0FF0, 0, 0])).2._last_angle ∧
      (angle AS5050_h (trackerAt 1000 [0, 0x0FF0, 0, 0])).2._last_angle < 1024) ∧
    (0 ≤ (angle AS5050_h (trackerAt 1000 [0, 0x0FF0, 0, 0])).1 ∧
      (angle AS5050_h (trackerAt 1000 [0, 0x0FF0, 0, 0])).1 < 1024) ∧
    (0 ≤ (angleN AS5050_h 3 (trackerAt 1000 [0, 0x0FF0, 0, 0])).2._last_angle ∧
      (angleN AS5050_h 3 (trackerAt 1000 [0, 0x0FF0, 0, 0])).2._last_angle < 1024) ∧
    (0 ≤ (setHome (trackerAt 1000 [0, 0x0FF0, 0, 0]))._last_angle ∧
      (setHome (trackerAt 1000 [0, 0x0FF0, 0, 0]))._last_angle < 1024) ∧
    (0 ≤ (handleErrors AS5050_h (trackerAt 1000 [0, 0x0FF0, 0, 0])).2._last_angle ∧
      (handleErrors AS5050_h (trackerAt 1000 [0, 0x0FF0, 0, 0])).2._last_angle < 1024) :=
  last_angle_range AS5050_h (trackerAt 1000 [0, 0x0FF0, 0, 0]) 3 (by decide) (by decide)

/-- Witness of C11: the gain-too-high driver, whose clear-error read is 0. -/
theorem residual_status_witness :
    ((handleErrors AS5050_h gainHighState).1 = 0 ↔
      (correctFaults AS5050_h gainHighState).bus.reply 1 = 0) :=
  (residual_status AS5050_h gainHighState (by decide) (by decide)).2.2.2

/-- Witness of C12: a status holding `ERR_DACOV` and `ERR_MODE` only. -/
theorem advisory_faults_not_corrected_witness :
    correctFaults AS5050_h advisoryState = advisoryState ∧
    (handleErrors AS5050_h advisoryState).2.bus.tx
      = advisoryState.bus.tx ++ readExchanges AS5050_h AS5050_h.REG_CLEAR_ERROR
          ++ (if AS5050_h.AS5050_RESET_ON_ERRORS = true ∧ advisoryState.bus.reply 1 ≠ 0
                then writeExchanges AS5050_h AS5050_h.REG_MASTER_RESET 0x0 else []) :=
  ⟨(advisory_faults_not_corrected AS5050_h advisoryState (by decide) (by decide) (by decide)
      (by decide) (by decide) (by decide)).1,
    (advisory_faults_not_corrected AS5050_h advisoryState (by decide) (by decide) (by decide)
      (by decide) (by decide) (by decide)).2.1 (by decide)⟩

end Mbed

/-! ## Evaluations -/

namespace Mbed

/-- C13 evaluated: the response word 0x0330 has correct parity, a clear error
flag and no alarm bit, yet with automatic error handling `angle()` sends four
exchanges: the read of the angle register and the read of the error-status
register. -/
theorem clean_response_status_read_evaluated :
    parityMismatch AS5050_h 0x0330 = 0 ∧
    0x0330 &&& AS5050_h.RES_ERROR_FLAG = 0 ∧
    0x0330 &&& (AS5050_h.RES_ALARM_HIGH ||| AS5050_h.RES_ALARM_LOW) = 0 ∧
    (angle AS5050_h (trackerAt 816 [0, 0x0330, 0, 0])).2.bus.tx
      = readExchanges AS5050_h AS5050_h.REG_ANGLE
          ++ readExchanges AS5050_h AS5050_h.REG_ERROR_STATUS ∧
    (angle AS5050_h (trackerAt 816 [0, 0x0330, 0, 0])).2.bus.tx.length = 4 := by
  refine ⟨by decide, by decide, by decide, by decide, by decide⟩

/-- C17 evaluated: the accepted response word 0x0FF0 carries 1020 in bits
11..2, and `angle()` returns its low ten bits, 1008; the accepted words 0x0330
and 0x0332 differ in bit 1 only and give 816 and 818. -/
theorem angle_payload_evaluated :
    (angle AS5050_h (trackerAt 1000 [0, 0x0FF0, 0, 0])).1 = 1008 ∧
    (angle AS5050_h (trackerAt 1000 [0, 0x0FF0, 0, 0])).2._last_angle = 1008 ∧
    (0x0FF0 >>> 2) &&& 0x3FF = 1020 ∧
    (angle AS5050_h (trackerAt 1000 [0, 0x0330, 0, 0])).1 = 816 ∧
    (angle AS5050_h (trackerAt 1000 [0, 0x0332, 0, 0])).1 = 818 ∧
    0x0330 ^^^ 0x0332 = 2 := by
  refine ⟨by decide, by decide, by decide, by decide, by decide, by decide⟩

/-- C20 evaluated: after `write()` with the clean confirmation word 0,
`error.parity` is still 1 when it was 1 before, and `error.transaction` is 2
when the address is odd (`REG_MASTER_RESET`); with the confirmation word 3,
which has correct parity and the error flag set, and the even address
`REG_GAIN_CONTROL`, `error.transaction` is 0. -/
theorem write_flags_evaluated :
    parityMismatch AS5050_h 0 = 0 ∧ 0 &&& AS5050_h.RES_ERROR_FLAG = 0 ∧
    (write AS5050_h AS5050_h.REG_GAIN_CONTROL 5 staleParity).2.error = ⟨1, 1, 0⟩ ∧
    (write AS5050_h AS5050_h.REG_MASTER_RESET 0 (trackerAt 0 [0, 0, 0])).2.error = ⟨0, 2, 0⟩ ∧
    parityMismatch AS5050_h 3 = 0 ∧ 3 &&& AS5050_h.RES_ERROR_FLAG = 2 ∧
    (write AS5050_h AS5050_h.REG_GAIN_CONTROL 5 (trackerAt 0 [0, 0, 3])).2.error = ⟨0, 0, 0⟩ := by
  refine ⟨by decide, by decide, by decide, by decide, by decide, by decide, by decide⟩

end Mbed

namespace Arduino

/-- C18 evaluated: with `mirror` set, `raw_angle()` returns 1024 for the raw
angle 0 (response word 0) and 924 for the raw angle 100 (response word
0x0191), where `RESOLUTION - 1 - a` is 1023 and 923. -/
theorem mirror_evaluated :
    anglePayload 0 = 0 ∧
    (raw_angle AS5050_h (mirroredAt 0 [0, 0, 0, 0])).1 = 1024 ∧
    anglePayload 0x0191 = 100 ∧
    (raw_angle AS5050_h (mirroredAt 0 [0, 0x0191, 0, 0])).1 = 924 ∧
    (raw_angle { AS5050_h with AS5050_AUTO_ERROR_HANDLING := false }
      (mirroredAt 0 [0, 0, 0, 0])).1 = 1024 := by
  refine ⟨by decide, by decide, by decide, by decide, by decide⟩

/-- C19 evaluated, with automatic error handling.  The response 0x0400 to the
angle read has a parity fault; the error-status read that follows is clean and
clears `error.parity`, so the iteration adds the corrupted angle 256, stores it
in `last_sample` and counts a revolution from `last_sample = 1000`.  The
response 0x8400 to the angle read has correct parity and the high alarm; the
confirmation 0x0004 of the gain write that follows has a parity fault, so the
iteration drops the fresh angle 256 and adds `last_sample = 100`. -/
theorem loop_parity_evaluated :
    parityMismatch AS5050_h 0x0400 = 1 ∧ anglePayload 0x0400 = 256 ∧
    (angleIter AS5050_h ⟨0, 1000, 0⟩ (trackerAt 1000 [0, 0x0400, 0, 0, 0, 0])).1
      = ⟨256, 256, 1⟩ ∧
    (angle AS5050_h (trackerAt 1000 [0, 0x0400, 0, 0, 0, 0])).1 = 256 ∧
    (angle AS5050_h (trackerAt 1000 [0, 0x0400, 0, 0, 0, 0])).2.rotations = 1 ∧
    parityMismatch AS5050_h 0x8400 = 0 ∧ anglePayload 0x8400 = 256 ∧
    (angleIter AS5050_h ⟨0, 100, 0⟩ (trackerAt 100 [0, 0x8400, 0, 5, 0, 0, 0x0004, 0, 0])).1
      = ⟨100, 100, 0⟩ := by
  refine ⟨by decide, by decide, by decide, by decide, by decide, by decide, by decide,
    by decide⟩

end Arduino

/-- C14 evaluated, for every value `tau` of `AS5050_TAU`: at raw angle 256 and
one revolution `totalAngleRad()` returns `90 + tau`, the angle in degrees plus
the revolutions in radians, where the continuous angle in radians is
`(256 + 1024) * tau / 1024`; they agree only for `tau = 360`.
`totalAngleDegrees()` returns 450, the continuous angle 1280 in degrees. -/
theorem totalAngleRad_evaluated (tau : ℚ) :
    (Mbed.totalAngle AS5050_h Mbed.quarterTurnUp).1 = 1280 ∧
    (Mbed.totalAngleDegrees AS5050_h Mbed.quarterTurnUp).1 = 1280 * 360 / 1024 ∧
    (Mbed.totalAngleRad AS5050_h tau Mbed.quarterTurnUp).1 = 90 + tau ∧
    ((Mbed.totalAngleRad AS5050_h tau Mbed.quarterTurnUp).1 = (256 + 1 * 1024) * tau / 1024
      ↔ tau = 360) ∧
    (Arduino.totalAngle AS5050_h Arduino.quarterTurnUp).1 = 1280 ∧
    (Arduino.totalAngleDegrees AS5050_h Arduino.quarterTurnUp).1 = 1280 * 360 / 1024 ∧
    (Arduino.totalAngleRad AS5050_h tau Arduino.quarterTurnUp).1 = 90 + tau ∧
    ((Arduino.totalAngleRad AS5050_h tau Arduino.quarterTurnUp).1 = (256 + 1 * 1024) * tau / 1024
      ↔ tau = 360) := by
  have m1 : (Mbed.angle AS5050_h Mbed.quarterTurnUp).1 = 256 := by decide
  have m2 : (Mbed.angle AS5050_h Mbed.quarterTurnUp).2.rotations = 1 := by decide
  have a1 : (Arduino.angle AS5050_h Arduino.quarterTurnUp).1 = 256 := by decide
  have a2 : (Arduino.angle AS5050_h Arduino.quarterTurnUp).2.rotations = 1 := by decide
  have hres : AS5050_h.AS5050_ANGULAR_RESOLUTION = 1024 := rfl
  have hm : (Mbed.totalAngleRad AS5050_h tau Mbed.quarterTurnUp).1 = 90 + tau := by
    simp only [Mbed.totalAngleRad, Mbed.angleDegrees, m1, m2, hres]
    norm_num
  have ha : (Arduino.totalAngleRad AS5050_h tau Arduino.quarterTurnUp).1 = 90 + tau := by
    simp only [Arduino.totalAngleRad, Arduino.angleDegrees, a1, a2, hres]
    norm_num
  refine ⟨by decide, ?_, hm, ?_, by decide, ?_, ha, ?_⟩
  · simp only [Mbed.totalAngleDegrees, Mbed.angleDegrees, m1, m2, hres]
    norm_num
  · rw [hm]
    constructor
    · intro h
      linarith
    · intro h
      rw [h]
      norm_num
  · simp only [Arduino.totalAngleDegrees, Arduino.angleDegrees, a1, a2, hres]
    norm_num
  · rw [ha]
    constructor
    · intro h
      linarith
    · intro h
      rw [h]
      norm_num

section StructuralFlags

attribute [local irreducible] bitCount

theorem lor_eq_zero_iff {a b : Nat} : a ||| b = 0 ↔ a = 0 ∧ b = 0 := by
  constructor
  · intro h
    refine ⟨?_, lor_right_eq_zero h⟩
    rw [Nat.or_comm] at h
    exact lor_right_eq_zero h
  · rintro ⟨rfl, rfl⟩
    rfl

namespace Arduino

/-! ## Flags left by `read()` -/

theorem arduino_read_flags (H : Header) (reg : Nat) (s : Driver) :
    (read H reg s).2.error.parity = parityMismatch H (s.bus.reply 1) ∧
    (read H reg s).2.error.transaction
      = s.error.transaction ||| parityMismatch H (s.bus.reply 1)
          ||| (s.bus.reply 1 &&& H.RES_ERROR_FLAG) := by
  simp [read, send, Bus.transferWord, Bus.reply]

/-- C21 (amended): after `read()`, `error.parity` is the parity verdict of the
response word `w` alone, and `error.transaction` is its previous value OR-ed
with that verdict and with the error-flag bit of `w`: it is non-zero exactly
when it was non-zero before, or `w` has a parity mismatch, or `w` has its
error flag set; starting from a zero `error.transaction` it is non-zero exactly
when `w` has a parity mismatch or its error flag set. -/
theorem read_flags_accumulate (H : Header) (reg : Nat) (s : Driver) :
    (read H reg s).2.error.parity = parityMismatch H (s.bus.reply 1) ∧
    (read H reg s).2.error.transaction
      = s.error.transaction ||| parityMismatch H (s.bus.reply 1)
          ||| (s.bus.reply 1 &&& H.RES_ERROR_FLAG) ∧
    ((read H reg s).2.error.transaction ≠ 0 ↔
      s.error.transaction ≠ 0 ∨ parityMismatch H (s.bus.reply 1) ≠ 0 ∨
        s.bus.reply 1 &&& H.RES_ERROR_FLAG ≠ 0) ∧
    (s.error.transaction = 0 →
      ((read H reg s).2.error.transaction ≠ 0 ↔
        parityMismatch H (s.bus.reply 1) ≠ 0 ∨ s.bus.reply 1 &&& H.RES_ERROR_FLAG ≠ 0)) := by
  obtain ⟨h1, h2⟩ := arduino_read_flags H reg s
  have h3 : ((read H reg s).2.error.transaction ≠ 0 ↔
      s.error.transaction ≠ 0 ∨ parityMismatch H (s.bus.reply 1) ≠ 0 ∨
        s.bus.reply 1 &&& H.RES_ERROR_FLAG ≠ 0) := by
    rw [h2, ne_eq, lor_eq_zero_iff, lor_eq_zero_iff]
    tauto
  refine ⟨h1, h2, h3, ?_⟩
  intro h0
  rw [h3]
  simp [h0]

/-! ## Branches of `handleErrors()` -/

theorem arduino_read_tx (H : Header) (reg : Nat) (s : Driver) :
    (read H reg s).1 = s.bus.reply 1 ∧
    (read H reg s).2.bus.tx = s.bus.tx ++ readExchanges H reg := by
  simp [read, send, Bus.transferWord, Bus.reply, readExchanges]

theorem arduino_write_tx (H : Header) (reg data : Nat) (s : Driver) :
    (write H reg data s).2.bus.tx = s.bus.tx ++ writeExchanges H reg data := by
  simp [write, send, Bus.transferWord, writeExchanges]

/-- When the address of the error-status register shares a bit with
`ERR_PARITY`, `handleErrors()` returns after the status read for every non-zero
status word, whatever its bits. -/
theorem arduino_handleErrors_const (H : Header) (s : Driver) (hs : s.bus.reply 1 ≠ 0)
    (hc : H.REG_ERROR_STATUS &&& H.ERR_PARITY ≠ 0) :
    (handleErrors H s).1 = s.bus.reply 1 ∧
    (handleErrors H s).2.bus.tx = s.bus.tx ++ readExchanges H H.REG_ERROR_STATUS := by
  obtain ⟨h1, h2⟩ := arduino_read_tx H H.REG_ERROR_STATUS s
  simp only [handleErrors, h1, hs, hc, ne_eq, not_false_eq_true, if_true, h2, and_self]

end Arduino

namespace Mbed

/-! ## Persistent faults -/

/-- C24: entered with a non-zero `error.status` without the parity bit, after
the clear-error read `handleErrors()` sends the three exchanges of
`write(REG_MASTER_RESET, 0)` if and only if the word of the clear-error read is
non-zero and reset-on-errors is enabled, sends them once and sends nothing
else; the word of the clear-error read is returned in either case. -/
theorem persistent_fault_policy (H : Header) (s : Driver) (hne : s.error.status ≠ 0)
    (hpar : s.error.status &&& H.ERR_PARITY = 0) :
    ((handleErrors H s).2.bus.tx
        = (correctFaults H s).bus.tx ++ readExchanges H H.REG_CLEAR_ERROR
            ++ writeExchanges H H.REG_MASTER_RESET 0x0
      ↔ H.AS5050_RESET_ON_ERRORS = true ∧ (correctFaults H s).bus.reply 1 ≠ 0) ∧
    ((handleErrors H s).2.bus.tx
        = (correctFaults H s).bus.tx ++ readExchanges H H.REG_CLEAR_ERROR
      ↔ ¬ (H.AS5050_RESET_ON_ERRORS = true ∧ (correctFaults H s).bus.reply 1 ≠ 0)) ∧
    (handleErrors H s).1 = (correctFaults H s).bus.reply 1 := by
  obtain ⟨m1, -, m3⟩ := mbed_handleErrors_residual H s hne hpar
  refine ⟨?_, ?_, m3⟩
  · rw [m1]
    by_cases hc : H.AS5050_RESET_ON_ERRORS = true ∧ (correctFaults H s).bus.reply 1 ≠ 0
    · simp [hc]
    · simp [hc, writeExchanges]
  · rw [m1]
    by_cases hc : H.AS5050_RESET_ON_ERRORS = true ∧ (correctFaults H s).bus.reply 1 ≠ 0
    · simp [hc, writeExchanges]
    · simp [hc]

end Mbed

end StructuralFlags

namespace Arduino

/-- C21 (as stated) fails: `error.transaction` is 1 from an earlier
transaction, the response word 0 has correct parity and a clear error flag,
and `error.transaction` is still 1 after `read()`. -/
theorem read_flags_stale_counterexample :
    staleTransaction.error.transaction = 1 ∧ staleTransaction.bus.reply 1 = 0 ∧
    parityMismatch AS5050_h 0 = 0 ∧ 0 &&& AS5050_h.RES_ERROR_FLAG = 0 ∧
    (read AS5050_h AS5050_h.REG_ANGLE staleTransaction).2.error.transaction = 1 := by
  refine ⟨by decide, by decide, by decide, by decide, by decide⟩

/-- C22 evaluated: the status word 1 has the parity-fault bit and the status
word 0x0100 has not, and `handleErrors()` sends the same fifteen exchanges for
both: status read, gain read, gain write, two software resets, clear-error
read.  The branches test `REG_ERROR_STATUS & ERR_...`, the register address,
which does not depend on the word read. -/
theorem status_branch_evaluated :
    1 &&& AS5050_h.ERR_PARITY ≠ 0 ∧ 0x0100 &&& AS5050_h.ERR_PARITY = 0 ∧
    0x0100 &&& (AS5050_h.ERR_DSPAHI ||| AS5050_h.ERR_DSPALO ||| AS5050_h.ERR_WOW
      ||| AS5050_h.ERR_DSPOV) = 0 ∧
    (handleErrors AS5050_h (trackerAt 0 [0, 1])).2.bus.tx
      = readExchanges AS5050_h AS5050_h.REG_ERROR_STATUS
        ++ readExchanges AS5050_h AS5050_h.REG_GAIN_CONTROL
        ++ writeExchanges AS5050_h AS5050_h.REG_GAIN_CONTROL (intToUInt (-1))
        ++ writeExchanges AS5050_h AS5050_h.REG_SOFTWARE_RESET AS5050_h.DATA_SWRESET_SPI
        ++ writeExchanges AS5050_h AS5050_h.REG_SOFTWARE_RESET AS5050_h.DATA_SWRESET_SPI
        ++ readExchanges AS5050_h AS5050_h.REG_CLEAR_ERROR ∧
    (handleErrors AS5050_h (trackerAt 0 [0, 0x0100])).2.bus.tx
      = (handleErrors AS5050_h (trackerAt 0 [0, 1])).2.bus.tx := by
  refine ⟨by decide, by decide, by decide, by decide, by decide⟩

end Arduino

namespace Legacy

/-- The gain branches of `handleErrors()`, entered with one alarm mask alone in
`error.transaction`: in the too-high case and in the too-low case alike the
gain 37 is read and the data frame sent is that of 37, which differs from the
frames of 36 and of 38; the member `gain` becomes 36 and 38 after the write.
`legacy_angle_no_gain` and `legacy_handleErrors_no_gain` show that the driver
itself never enters these branches. -/
theorem gain_write_back_evaluated :
    (handleErrors AS5050_h (alarmState true)).2.bus.tx
      = Arduino.readExchanges AS5050_h AS5050_h.REG_GAIN_CONTROL
        ++ Arduino.writeExchanges AS5050_h AS5050_h.REG_GAIN_CONTROL 37
        ++ Arduino.readExchanges AS5050_h AS5050_h.REG_CLEAR_ERROR ∧
    (handleErrors AS5050_h (alarmState true)).2.gain = 36 ∧
    (handleErrors AS5050_h (alarmState false)).2.bus.tx
      = Arduino.readExchanges AS5050_h AS5050_h.REG_GAIN_CONTROL
        ++ Arduino.writeExchanges AS5050_h AS5050_h.REG_GAIN_CONTROL 37
        ++ Arduino.readExchanges AS5050_h AS5050_h.REG_CLEAR_ERROR ∧
    (handleErrors AS5050_h (alarmState false)).2.gain = 38 ∧
    Arduino.writeDataFrame 37 ≠ Arduino.writeDataFrame 36 ∧
    Arduino.writeDataFrame 37 ≠ Arduino.writeDataFrame 38 := by
  refine ⟨by decide, by decide, by decide, by decide, by decide, by decide⟩

end Legacy

namespace Mbed

/-- Witness of C24: the clear-error read answers 4 and the master reset is
sent. -/
theorem persistent_fault_policy_witness :
    (handleErrors AS5050_h persistentState).2.bus.tx
      = (correctFaults AS5050_h persistentState).bus.tx
          ++ readExchanges AS5050_h AS5050_h.REG_CLEAR_ERROR
          ++ writeExchanges AS5050_h AS5050_h.REG_MASTER_RESET 0x0 ∧
    (handleErrors AS5050_h persistentState).1 = 4 :=
  ⟨(persistent_fault_policy AS5050_h persistentState (by decide) (by decide)).1.mpr
      (by decide),
    by decide⟩

end Mbed

section StructuralSamples

attribute [local irreducible] bitCount

theorem chain_take {R : Nat → Nat → Prop} :
    ∀ (l : List Nat) (a : Nat) (i : Nat), List.Chain R a l → List.Chain R a (l.take i) := by
  intro l
  induction l with
  | nil => intro a i _; simp
  | cons b t ih =>
    intro a i h
    cases i with
    | zero => exact List.Chain.nil
    | succ k =>
      rw [List.chain_cons] at h
      rw [List.take_succ_cons, List.chain_cons]
      exact ⟨h.1, ih b k h.2⟩

namespace Mbed

/-! ## Rounding of the filtered angle -/

end Mbed

end StructuralSamples

section StructuralTracking

attribute [local irreducible] bitCount

namespace Mbed

/-! ## Exact tracking below one quadrant per sample -/

theorem shortestStep_abs_lt (a b : Nat) (hd : circDist a b < 256) :
    |shortestStep a b| < 256 := by
  simp only [circDist, min_lt_iff] at hd
  simp only [shortestStep]
  rw [abs_lt]
  split_ifs <;> constructor <;> omega

theorem unwrapped_take_step :
    ∀ (samples : List Nat) (p : Int) (a : Nat) (i : Nat), a < 1024 →
      (∀ x ∈ samples, x < 1024) →
      List.Chain (fun a b => circDist a b < 256) a samples →
      |unwrapped p a (samples.take (i + 1)) - unwrapped p a (samples.take i)| < 256 := by
  intro samples
  induction samples with
  | nil =>
    intro p a i _ _ _
    simp [unwrapped]
  | cons b rest ih =>
    intro p a i ha hs hc
    have hb : b < 1024 := hs b (List.mem_cons_self b rest)
    rw [List.chain_cons] at hc
    cases i with
    | zero =>
      simp only [List.take_succ_cons, List.take_zero, unwrapped]
      have := shortestStep_abs_lt a b hc.1
      rw [abs_lt] at this ⊢
      constructor <;> omega
    | succ k =>
      simp only [List.take_succ_cons, unwrapped]
      exact ih (p + shortestStep a b) b k hb
        (fun x hx => hs x (List.mem_cons_of_mem b hx)) hc.2

theorem position_eq_unwrapped (H : Header) (hres : H.AS5050_ANGULAR_RESOLUTION = 1024)
    (s : Driver) (s0 : Nat) (samples : List Nat) (h0 : s0 < 1024) (hl : s._last_angle = s0)
    (hr : s.rotations = 0) (hs : ∀ x ∈ samples, x < 1024)
    (hq : List.Chain (fun a b => circDist a b < 256) s0 samples) :
    position (feedAccepted H s samples) = unwrapped s0 s0 samples := by
  have hq2 : List.Chain (fun a b => circDist a b ≤ 256 ∧ ¬ (a = 768 ∧ b = 0)) s0 samples := by
    refine List.Chain.imp ?_ hq
    intro a b hab
    refine ⟨le_of_lt hab, ?_⟩
    rintro ⟨rfl, rfl⟩
    simp [circDist] at hab
  obtain ⟨l, -, hl2, hl3⟩ := feedAccepted_unwrapped H hres samples s s0 h0 hl hs hq2
  rw [hr] at hl3
  simp only [zero_mul, zero_add] at hl3
  rw [position, hl2, hl3]

/-- C26: over accepted samples in [0,1024) whose consecutive pairs have
circular distance below 256, starting from `_last_angle = s_0` and
`rotations = 0`, after each sample the continuous position
`rotations * 1024 + _last_angle` equals the unwrapped position, and
consecutive continuous positions differ by less than one quadrant. -/
theorem sub_quadrant_exact_tracking (H : Header)
    (hres : H.AS5050_ANGULAR_RESOLUTION = 1024) (s : Driver) (s0 : Nat)
    (samples : List Nat) (h0 : s0 < 1024) (hl : s._last_angle = s0)
    (hr : s.rotations = 0) (hs : ∀ x ∈ samples, x < 1024)
    (hq : List.Chain (fun a b => circDist a b < 256) s0 samples) (i : Nat) :
    position (feedAccepted H s (samples.take i)) = unwrapped s0 s0 (samples.take i) ∧
    |position (feedAccepted H s (samples.take (i + 1)))
        - position (feedAccepted H s (samples.take i))| < 256 := by
  have hp : ∀ j, position (feedAccepted H s (samples.take j))
      = unwrapped s0 s0 (samples.take j) := by
    intro j
    exact position_eq_unwrapped H hres s s0 (samples.take j) h0 hl hr
      (fun x hx => hs x (List.mem_of_mem_take hx)) (chain_take samples s0 j hq)
  refine ⟨hp i, ?_⟩
  rw [hp (i + 1), hp i]
  exact unwrapped_take_step samples s0 s0 i h0 hs hq

end Mbed

end StructuralTracking

namespace Mbed

/-- Witness of C26: the samples 1022, 2, 5 after 1020, at the third sample. -/
theorem sub_quadrant_exact_tracking_witness :
    position (feedAccepted AS5050_h (trackerAt 1020 []) ([1022, 2, 5].take 2))
      = unwrapped 1020 1020 ([1022, 2, 5].take 2) ∧
    |position (feedAccepted AS5050_h (trackerAt 1020 []) ([1022, 2, 5].take (2 + 1)))
        - position (feedAccepted AS5050_h (trackerAt 1020 []) ([1022, 2, 5].take 2))| < 256 :=
  sub_quadrant_exact_tracking AS5050_h rfl (trackerAt 1020 []) 1020 [1022, 2, 5]
    (by decide) rfl rfl (by decide)
    (by repeat (first | exact List.Chain.nil | refine List.Chain.cons (by decide) ?_)) 2

end Mbed

section StructuralLegacy

attribute [local irreducible] bitCount

theorem lor_and_mask (x m : Nat) : (x ||| m) &&& m = m := by
  apply Nat.eq_of_testBit_eq
  intro i
  simp only [Nat.testBit_and, Nat.testBit_or]
  cases x.testBit i <;> cases m.testBit i <;> rfl

theorem lor_flag_and_mask (t p m : Nat) (hp : p ≤ 1) (hm : 1 &&& m = 0) :
    (t ||| p) &&& m = t &&& m := by
  rcases Nat.le_one_iff_eq_zero_or_eq_one.mp hp with rfl | rfl
  · simp
  · rw [Nat.and_distrib_right, hm, Nat.or_zero]

namespace Legacy

/-! ## The gain branches of `src/as5050.cpp` are never entered -/

theorem legacy_parityMismatch_le_one (H : Header) (w : Nat) :
    Arduino.parityMismatch H w ≤ 1 := by
  unfold Arduino.parityMismatch neFlag
  split_ifs <;> omega

theorem legacy_read_facts (H : Header) (reg : Nat) (s : Driver) :
    (read H reg s).1 = s.bus.reply 1 ∧
    (read H reg s).2.bus.tx = s.bus.tx ++ readExchanges H reg ∧
    (read H reg s).2.error.transaction
      = s.error.transaction ||| Arduino.parityMismatch H (s.bus.reply 1) ∧
    (read H reg s).2.error.status = s.error.status := by
  simp [read, send, Bus.transferWord, Bus.reply, readExchanges]

theorem legacy_write_facts (H : Header) (reg data : Nat) (s : Driver) :
    (write H reg data s).2.bus.tx = s.bus.tx ++ writeExchanges H reg data ∧
    (write H reg data s).2.error.transaction
      = (s.bus.reply 2 &&& H.RES_ERROR_FLAG) ||| Arduino.parityMismatch H (s.bus.reply 2) ∧
    (write H reg data s).2.error.status = s.error.status := by
  simp [write, send, Bus.transferWord, Bus.reply, writeExchanges]

/-- `read()` keeps the alarm bits of `error.transaction` as they are. -/
theorem legacy_read_keeps (H : Header) (reg : Nat) (s : Driver)
    (h1 : 1 &&& (H.RES_ALARM_HIGH ||| H.RES_ALARM_LOW) = 0)
    (hs : BothOrNoAlarm H s.error.transaction) :
    BothOrNoAlarm H (read H reg s).2.error.transaction := by
  unfold BothOrNoAlarm at hs ⊢
  rw [(legacy_read_facts H reg s).2.2.1,
    lor_flag_and_mask _ _ _ (legacy_parityMismatch_le_one H _) h1]
  exact hs

/-- `write()` leaves no alarm bit in `error.transaction`. -/
theorem legacy_write_keeps (H : Header) (reg data : Nat) (s : Driver)
    (h1 : 1 &&& (H.RES_ALARM_HIGH ||| H.RES_ALARM_LOW) = 0)
    (h2 : H.RES_ERROR_FLAG &&& (H.RES_ALARM_HIGH ||| H.RES_ALARM_LOW) = 0) :
    BothOrNoAlarm H (write H reg data s).2.error.transaction := by
  unfold BothOrNoAlarm
  left
  rw [(legacy_write_facts H reg data s).2.1,
    lor_flag_and_mask _ _ _ (legacy_parityMismatch_le_one H _) h1, Nat.and_assoc, h2,
    Nat.and_zero]

/-- Entered with both alarm masks or none in `error.transaction`, where
neither mask contains the other, `handleErrors()` takes neither gain case: it
sends at most the clear-error read and the software reset of the
persistent-error policy, and leaves no alarm bit in `error.transaction`. -/
theorem legacy_handleErrors_no_gain (H : Header) (s : Driver)
    (h1 : 1 &&& (H.RES_ALARM_HIGH ||| H.RES_ALARM_LOW) = 0)
    (h2 : H.RES_ERROR_FLAG &&& (H.RES_ALARM_HIGH ||| H.RES_ALARM_LOW) = 0)
    (hH : H.RES_ALARM_HIGH ||| H.RES_ALARM_LOW ≠ H.RES_ALARM_HIGH)
    (hL : H.RES_ALARM_HIGH ||| H.RES_ALARM_LOW ≠ H.RES_ALARM_LOW)
    (hs : BothOrNoAlarm H s.error.transaction) :
    (handleErrors H s).2.bus.tx
      = s.bus.tx ++
        (if s.error.transaction &&& (H.RES_ALARM_HIGH ||| H.RES_ALARM_LOW) ≠ 0 then
          readExchanges H H.REG_CLEAR_ERROR ++
            (if H.AS5050_RESET_ON_ERRORS = true ∧ s.bus.reply 1 ≠ 0 then
              writeExchanges H H.REG_SOFTWARE_RESET H.DATA_SWRESET_SPI else [])
         else []) ∧
    (handleErrors H s).2.gain = s.gain ∧
    BothOrNoAlarm H (handleErrors H s).2.error.transaction := by
  by_cases hz : s.error.transaction &&& (H.RES_ALARM_HIGH ||| H.RES_ALARM_LOW) = 0
  · have e : handleErrors H s = (s.error.status, s) := by
      unfold handleErrors
      simp only [hz, ne_eq, not_true_eq_false, if_false]
    rw [e]
    simp only [hz, ne_eq, not_true_eq_false, if_false, List.append_nil, true_and]
    exact hs
  · have hb : s.error.transaction &&& (H.RES_ALARM_HIGH ||| H.RES_ALARM_LOW)
        = H.RES_ALARM_HIGH ||| H.RES_ALARM_LOW := by
      rcases hs with h | h
      · exact absurd h hz
      · exact h
    have e : handleErrors H s =
        (let t : Driver := { s with error := { s.error with transaction := 0 } }
         let r := read H H.REG_CLEAR_ERROR t
         let u : Driver := { r.2 with error := { r.2.error with status := r.1 } }
         let v : Driver :=
           if H.AS5050_RESET_ON_ERRORS = true ∧ u.error.status ≠ 0 then
             (write H H.REG_SOFTWARE_RESET H.DATA_SWRESET_SPI u).2
           else u
         (v.error.status, v)) := by
      have hM : H.RES_ALARM_HIGH ||| H.RES_ALARM_LOW ≠ 0 := by
        rw [← hb]
        exact hz
      unfold handleErrors
      simp only [hb, ne_eq, hH, hL, hM, not_false_eq_true, if_true, if_false]
    rw [e]
    obtain ⟨r1, r2, r3, -⟩ := legacy_read_facts H H.REG_CLEAR_ERROR
      { s with error := { s.error with transaction := 0 } }
    simp only [hz, ne_eq, not_false_eq_true, if_true, r1]
    by_cases hc : H.AS5050_RESET_ON_ERRORS = true ∧ s.bus.reply 1 ≠ 0
    · simp only [hc, and_self, ne_eq, not_false_eq_true, if_true]
      refine ⟨?_, ?_, ?_⟩
      · rw [(legacy_write_facts H _ _ _).1, r2, List.append_assoc]
      · simp [write, send, read]
      · exact legacy_write_keeps H _ _ _ h1 h2
    · simp only [hc, if_false, List.append_nil]
      refine ⟨r2, ?_, ?_⟩
      · simp [read, send]
      · unfold BothOrNoAlarm
        left
        rw [r3, lor_flag_and_mask _ _ _ (legacy_parityMismatch_le_one H _) h1]
        simp

/-- `angle()` hands `handleErrors()` both alarm masks, whatever the response,
and leaves both or none in `error.transaction`; it never changes `gain`. -/
theorem legacy_angle_no_gain (H : Header) (s : Driver)
    (h1 : 1 &&& (H.RES_ALARM_HIGH ||| H.RES_ALARM_LOW) = 0)
    (h2 : H.RES_ERROR_FLAG &&& (H.RES_ALARM_HIGH ||| H.RES_ALARM_LOW) = 0)
    (hH : H.RES_ALARM_HIGH ||| H.RES_ALARM_LOW ≠ H.RES_ALARM_HIGH)
    (hL : H.RES_ALARM_HIGH ||| H.RES_ALARM_LOW ≠ H.RES_ALARM_LOW) :
    (angle H s).2.gain = s.gain ∧ BothOrNoAlarm H (angle H s).2.error.transaction := by
  have hboth : ∀ x : Nat, BothOrNoAlarm H
      (x ||| H.RES_ALARM_HIGH ||| H.RES_ALARM_LOW
        ||| Arduino.parityMismatch H (s.bus.reply 1)) := by
    intro x
    unfold BothOrNoAlarm
    right
    rw [lor_flag_and_mask _ _ _ (legacy_parityMismatch_le_one H _) h1, Nat.or_assoc,
      lor_and_mask]
  obtain ⟨r1, -, -, -⟩ := legacy_read_facts H H.REG_ANGLE s
  simp only [angle]
  split_ifs
  · have k := legacy_handleErrors_no_gain H
      { (read H H.REG_ANGLE s).2 with error := { (read H H.REG_ANGLE s).2.error with
          transaction := (read H H.REG_ANGLE s).1 ||| H.RES_ALARM_HIGH ||| H.RES_ALARM_LOW
            ||| Arduino.parityMismatch H (read H H.REG_ANGLE s).1 } }
      h1 h2 hH hL (by rw [r1]; exact hboth _)
    refine ⟨?_, k.2.2⟩
    rw [k.2.1]
    simp [read, send]
  · refine ⟨by simp [read, send], ?_⟩
    rw [r1]
    exact hboth _

end Legacy

end StructuralLegacy

namespace Legacy

/-- The modelled header meets the hypotheses of the lemmas above, and a
response to `angle()` with correct parity and the high alarm alone (0x8400)
leads to the clear-error read only: no exchange with the gain-control register
is sent and `gain` stays 37. -/
theorem legacy_high_alarm_response_evaluated :
    1 &&& (AS5050_h.RES_ALARM_HIGH ||| AS5050_h.RES_ALARM_LOW) = 0 ∧
    AS5050_h.RES_ERROR_FLAG &&& (AS5050_h.RES_ALARM_HIGH ||| AS5050_h.RES_ALARM_LOW) = 0 ∧
    AS5050_h.RES_ALARM_HIGH ||| AS5050_h.RES_ALARM_LOW ≠ AS5050_h.RES_ALARM_HIGH ∧
    AS5050_h.RES_ALARM_HIGH ||| AS5050_h.RES_ALARM_LOW ≠ AS5050_h.RES_ALARM_LOW ∧
    0x8400 &&& (AS5050_h.RES_ALARM_HIGH ||| AS5050_h.RES_ALARM_LOW) = AS5050_h.RES_ALARM_HIGH ∧
    Arduino.parityMismatch AS5050_h 0x8400 = 0 ∧
    (angle AS5050_h (idleWith [0, 0x8400, 0, 0])).2.bus.tx
      = readExchanges AS5050_h AS5050_h.REG_ANGLE
          ++ readExchanges AS5050_h AS5050_h.REG_CLEAR_ERROR ∧
    (angle AS5050_h (idleWith [0, 0x8400, 0, 0])).2.gain = 37 := by
  refine ⟨by decide, by decide, by decide, by decide, by decide, by decide, by decide,
    by decide⟩

end Legacy

end AS5050
